import Mathlib

/-
Verification of the chunked image-segmentation storage layer in `utils.py`.

The three backends (`storage_hdf5`, `storage_memmap`, `storage_raw`) are
shallowly embedded as pure Lean functions over explicit state records.
Sample contents are abstract types `α` (images) and `β` (masks); the
uint8 round trip through `Image.fromarray` on stored arrays is the
identity, while the flat-file backend's save/open codecs are modelled as
explicit re-encode functions passed to `append`.
-/

namespace DLStorage

/-- Python-level failure conditions raised by the storage code. -/
inductive Err where
  | valueErrorBroadcast : Err
  | typeErrorBroadcast : Err
  | attributeErrorMissing : String → Err
  | attributeErrorRaised : String → Err
  | assertionError : Err
  | indexError : Err
  | fileExistsError : String → Err
  | fileNotFoundError : String → Err
deriving DecidableEq

/-- The configuration dict consumed by every backend constructor. -/
structure Config where
  dataset_size : Nat
  targetH : Nat
  targetW : Nat
  chunk_size : Nat
  ann_file : String
deriving DecidableEq

/-- Python `s.rstrip(chars)`: removes every trailing character that is a
member of the character set `chars` (NOT suffix removal). -/
def pyRstrip (s : String) (chars : String) : String :=
  String.mk ((s.data.reverse.dropWhile (fun c => chars.data.contains c)).reverse)

/-- The artifact base path every backend derives from the configured
source-file path: `config["ann_file"].rstrip(".txt")` in the source. -/
def derivedPath (annFile : String) : String :=
  pyRstrip annFile ".txt"

/-- Python sequence slicing `xs[:k]` where the bound `k` may be negative. -/
def pyTake (xs : List γ) (k : Int) : List γ :=
  if 0 ≤ k then xs.take k.toNat else xs.take (xs.length - (-k).toNat)

/-- numpy basic-slice assignment `arr[l:r] = src` for a list of sample
rows: the selection is `[min l len, max (min l len) (min r len))`; the
source must have exactly the selection's length, or be a single row
(which broadcasts); otherwise numpy raises a broadcast `ValueError`. -/
def sliceAssign (arr : List γ) (l r : Nat) (src : List γ) : Except Err (List γ) :=
  let lo := min l arr.length
  let hi := max lo (min r arr.length)
  if src.length = hi - lo then
    Except.ok (arr.take lo ++ src ++ arr.drop hi)
  else
    match src with
    | [x] => Except.ok (arr.take lo ++ List.replicate (hi - lo) x ++ arr.drop hi)
    | _ => Except.error Err.valueErrorBroadcast

/-- Model of the h5py write `dset[l:r] = src` performed by
`Dataset.__setitem__`: an empty selection (`selection.nselect == 0`)
returns early, before any validation of the source — the write is
silently skipped for any source; a non-empty selection requires the
source row count to match the selection exactly (the shape this code
always supplies in range), else h5py rejects the broadcast with a
`TypeError`. This differs from numpy (`sliceAssign`), which validates
the source against an empty selection too. -/
def h5SliceAssign (arr : List γ) (l r : Nat) (src : List γ) : Except Err (List γ) :=
  let lo := min l arr.length
  let hi := max lo (min r arr.length)
  if hi - lo = 0 then
    Except.ok arr
  else if src.length = hi - lo then
    Except.ok (arr.take lo ++ src ++ arr.drop hi)
  else
    Except.error Err.typeErrorBroadcast

/-- Left bound `l_idx = self.pos * self.config["chunk_size"]`, the left end of the
index range covered by one append call. -/
def l_idx (pos chunk_size : Nat) : Nat := pos * chunk_size

/-- Right bound `r_idx = min(self.config["dataset_size"], l_idx + self.config["chunk_size"])`,
the (exclusive) right end of the index range covered by one append call. -/
def r_idx (pos chunk_size dataset_size : Nat) : Nat :=
  min dataset_size (l_idx pos chunk_size + chunk_size)

/-- State of the two array-backed backends (`storage_hdf5`,
`storage_memmap`): the `config` dict, the write-step counter `pos`, the
base-class flag `_storage_class__locked` (name-mangled, set by
`storage_class.__init__`), the subclass flag `_storage_hdf5__locked` /
`_storage_memmap__locked` (name-mangled, absent until the subclass's
`lock` assigns it — hence an `Option`), and the two stored arrays of
sample rows. -/
structure ArrSt (α β : Type) where
  config : Config
  pos : Nat
  baseLocked : Bool
  subLocked : Option Bool
  input : List α
  target : List β

/-- State of `storage_raw`: per-index files `Input/input<idx>.jpg` and
`Target/target<idx>.png`, modelled as partial maps from index to the
decoded content an `open` of that file would produce. -/
structure RawSt (α β : Type) where
  config : Config
  pos : Nat
  baseLocked : Bool
  subLocked : Option Bool
  inputFiles : Nat → Option α
  targetFiles : Nat → Option β

/-- On-disk array extents inspected by the `dataset_size` assertions:
`self.dataset["input"].shape` and `self.dataset["target"].shape`
(resp. `self.input.shape` / `self.target.shape` for memmap). -/
structure DiskShapes where
  inputShape : List Nat
  targetShape : List Nat
deriving DecidableEq

/-- Filesystem state seen by `storage_raw.__init__`: whether the two
target directories `Input/` and `Target/` already exist. -/
structure FS where
  inputDirPresent : Bool
  targetDirPresent : Bool
deriving DecidableEq

/-- One storage-contract operation. -/
inductive Op (α β : Type) where
  | append : List α → List β → Op α β
  | lock : Op α β
  | get : Nat → Op α β

/-- Number of append calls needed to cover the dataset: `ceil(N / C)`. -/
def numChunksFor (dataset_size chunk_size : Nat) : Nat :=
  (dataset_size + chunk_size - 1) / chunk_size

/-- The covering chunk sequence for sample lists `xs`, `ys`: the k-th
append call is handed rows `[k*C, k*C + C)` of each list. -/
def chunksFor (chunk_size : Nat) (xs : List α) (ys : List β) (numChunks : Nat) :
    List (List α × List β) :=
  (List.range numChunks).map
    (fun k => ((xs.drop (k * chunk_size)).take chunk_size,
               (ys.drop (k * chunk_size)).take chunk_size))

/-- The failures Python raises on a pre-lock read: both the missing
mangled attribute and the explicit raise are `AttributeError`s, the
spec's `NotLocked` condition. -/
def isNotLockedFailure : Except Err γ → Bool
  | Except.error (Err.attributeErrorMissing _) => true
  | Except.error (Err.attributeErrorRaised _) => true
  | _ => false

namespace storage_hdf5

/-- Constructor `storage_hdf5.__init__`: the base constructor sets `pos = 0` and the
base-class mangled flag to `False` (the subclass flag does not exist
yet); `create_dataset` for "input"/"target" is attempted and a
`ValueError` for an already-existing array is swallowed, so existing
contents (`inputArr`/`targetArr`, of any extent) are reused unvalidated,
and a fresh array is zero-filled (`zi`/`zt` model the uint8 zero row). -/
def init (cfg : Config) (zi : α) (zt : β)
    (inputArr : Option (List α)) (targetArr : Option (List β)) : ArrSt α β :=
  { config := cfg, pos := 0, baseLocked := false, subLocked := none,
    input := match inputArr with
      | some old => old
      | none => List.replicate cfg.dataset_size zi,
    target := match targetArr with
      | some old => old
      | none => List.replicate cfg.dataset_size zt }

/-- Property `storage_hdf5.dataset_size`: asserts
`dataset["input"].shape[:-1] == dataset["target"].shape` and
`dataset["target"].shape[0] == config["dataset_size"]`, then returns the
configured size. -/
def dataset_size (cfg : Config) (sh : DiskShapes) : Except Err Nat :=
  if sh.inputShape.dropLast = sh.targetShape then
    match sh.targetShape with
    | [] => Except.error Err.indexError
    | n :: _ =>
      if n = cfg.dataset_size then Except.ok cfg.dataset_size
      else Except.error Err.assertionError
  else Except.error Err.assertionError

/-- Method `storage_hdf5.append`: writes `input_chunk[:r-l]` into
`dataset["input"][l:r]` and likewise for target through h5py dataset
writes (`h5SliceAssign`: an empty selection is silently skipped without
source validation), then increments `pos`. -/
def append (s : ArrSt α β) (input_chunk : List α) (target_chunk : List β) :
    Except Err (ArrSt α β) := do
  let l := s.pos * s.config.chunk_size
  let r := min s.config.dataset_size (l + s.config.chunk_size)
  let input2 ← h5SliceAssign s.input l r (pyTake input_chunk ((r : Int) - (l : Int)))
  let target2 ← h5SliceAssign s.target l r (pyTake target_chunk ((r : Int) - (l : Int)))
  Except.ok { s with input := input2, target := target2, pos := s.pos + 1 }

/-- Method `storage_hdf5.lock`: closes and reopens the file read-only (contents
are preserved) and assigns the subclass-mangled flag
`_storage_hdf5__locked = True`. -/
def lock (s : ArrSt α β) : ArrSt α β :=
  { s with subLocked := some true }

/-- Method `storage_hdf5.__getitem__`: reads the subclass-mangled flag — absent
before `lock`, so the read itself raises `AttributeError`; the explicit
`raise AttributeError("HDF5 file is not locked. Access denied.")` fires
only when the flag exists and is `False`; otherwise the stored rows are
decoded with `Image.fromarray` (the identity on uint8 rows). -/
def getitem (s : ArrSt α β) (idx : Nat) : Except Err (α × β) :=
  match s.subLocked with
  | none => Except.error (Err.attributeErrorMissing "_storage_hdf5__locked")
  | some false => Except.error (Err.attributeErrorRaised "HDF5 file is not locked. Access denied.")
  | some true =>
    match s.input[idx]?, s.target[idx]? with
    | some a, some b => Except.ok (a, b)
    | _, _ => Except.error Err.indexError

/-- One contract operation on an hdf5 backend. -/
def step (s : ArrSt α β) : Op α β → Except Err (ArrSt α β)
  | Op.append ic tc => append s ic tc
  | Op.lock => Except.ok (lock s)
  | Op.get idx => (getitem s idx).map (fun _ => s)

/-- A sequence of contract operations on an hdf5 backend. -/
def run (s : ArrSt α β) (ops : List (Op α β)) : Except Err (ArrSt α β) :=
  List.foldlM step s ops

/-- Successive append calls. -/
def runAppends (s : ArrSt α β) (chunks : List (List α × List β)) :
    Except Err (ArrSt α β) :=
  List.foldlM (fun st c => append st c.1 c.2) s chunks

/-- Full write/lock/read pipeline on a fresh artifact: cover the dataset
with successive appends, lock, read index `idx`. -/
def pipeline (cfg : Config) (zi : α) (zt : β) (xs : List α) (ys : List β)
    (idx : Nat) : Except Err (α × β) := do
  let s0 := init cfg zi zt none none
  let s1 ← runAppends s0 (chunksFor cfg.chunk_size xs ys (numChunksFor cfg.dataset_size cfg.chunk_size))
  getitem (lock s1) idx

end storage_hdf5

namespace storage_memmap

/-- Constructor `storage_memmap.__init__`: opens both memmaps in mode `w+`, which
creates zero-filled backing files of the configured shape. -/
def init (cfg : Config) (zi : α) (zt : β) : ArrSt α β :=
  { config := cfg, pos := 0, baseLocked := false, subLocked := none,
    input := List.replicate cfg.dataset_size zi,
    target := List.replicate cfg.dataset_size zt }

/-- Property `storage_memmap.dataset_size`: asserts
`input.shape[:-1] == target.shape` and
`input.shape[0] == config["dataset_size"]`, then returns the configured
size. -/
def dataset_size (cfg : Config) (sh : DiskShapes) : Except Err Nat :=
  if sh.inputShape.dropLast = sh.targetShape then
    match sh.inputShape with
    | [] => Except.error Err.indexError
    | n :: _ =>
      if n = cfg.dataset_size then Except.ok cfg.dataset_size
      else Except.error Err.assertionError
  else Except.error Err.assertionError

/-- Method `storage_memmap.append`: the same index range and chunk
prefix as the hdf5 backend, but written through numpy memmapped views,
so with numpy slice-assignment semantics (`sliceAssign`) rather than
the h5py write semantics (`h5SliceAssign`). -/
def append (s : ArrSt α β) (input_chunk : List α) (target_chunk : List β) :
    Except Err (ArrSt α β) := do
  let l := s.pos * s.config.chunk_size
  let r := min s.config.dataset_size (l + s.config.chunk_size)
  let input2 ← sliceAssign s.input l r (pyTake input_chunk ((r : Int) - (l : Int)))
  let target2 ← sliceAssign s.target l r (pyTake target_chunk ((r : Int) - (l : Int)))
  Except.ok { s with input := input2, target := target2, pos := s.pos + 1 }

/-- Method `storage_memmap.lock`: drops the writable mappings, reopens both
files read-only with the configured shape (contents preserved), and
assigns `_storage_memmap__locked = True`. -/
def lock (s : ArrSt α β) : ArrSt α β :=
  { s with subLocked := some true }

/-- Method `storage_memmap.__getitem__`: same gating as the hdf5 backend, with
its own mangled flag and error message. -/
def getitem (s : ArrSt α β) (idx : Nat) : Except Err (α × β) :=
  match s.subLocked with
  | none => Except.error (Err.attributeErrorMissing "_storage_memmap__locked")
  | some false => Except.error (Err.attributeErrorRaised "Memory-mapped file is not locked. Access denied.")
  | some true =>
    match s.input[idx]?, s.target[idx]? with
    | some a, some b => Except.ok (a, b)
    | _, _ => Except.error Err.indexError

/-- One contract operation on a memmap backend. -/
def step (s : ArrSt α β) : Op α β → Except Err (ArrSt α β)
  | Op.append ic tc => append s ic tc
  | Op.lock => Except.ok (lock s)
  | Op.get idx => (getitem s idx).map (fun _ => s)

/-- A sequence of contract operations on a memmap backend. -/
def run (s : ArrSt α β) (ops : List (Op α β)) : Except Err (ArrSt α β) :=
  List.foldlM step s ops

/-- Successive append calls. -/
def runAppends (s : ArrSt α β) (chunks : List (List α × List β)) :
    Except Err (ArrSt α β) :=
  List.foldlM (fun st c => append st c.1 c.2) s chunks

/-- Full write/lock/read pipeline on a fresh pair of memmaps. -/
def pipeline (cfg : Config) (zi : α) (zt : β) (xs : List α) (ys : List β)
    (idx : Nat) : Except Err (α × β) := do
  let s1 ← runAppends (init cfg zi zt) (chunksFor cfg.chunk_size xs ys (numChunksFor cfg.dataset_size cfg.chunk_size))
  getitem (lock s1) idx

end storage_memmap

namespace storage_raw

/-- Constructor `storage_raw.__init__`: `os.makedirs(path, exist_ok=True)` for the
base path, then `os.makedirs(..., exist_ok=False)` for `Input/` and
`Target/` in that order — a pre-existing directory raises
`FileExistsError` before any append can run. -/
def init (cfg : Config) (fs : FS) : Except Err (RawSt α β) :=
  if fs.inputDirPresent then Except.error (Err.fileExistsError "Input")
  else if fs.targetDirPresent then Except.error (Err.fileExistsError "Target")
  else Except.ok
    { config := cfg, pos := 0, baseLocked := false, subLocked := none,
      inputFiles := fun _ => none, targetFiles := fun _ => none }

/-- Property `storage_raw.dataset_size`: asserts the two directory listings have
equal length and that length equals `config["dataset_size"]`. -/
def dataset_size (cfg : Config) (nInput nTarget : Nat) : Except Err Nat :=
  if nInput = nTarget then
    if nInput = cfg.dataset_size then Except.ok cfg.dataset_size
    else Except.error Err.assertionError
  else Except.error Err.assertionError

/-- Method `storage_raw.append`: for each `idx` in `range(l, r)`, saves
`input_chunk[idx-l]` as a JPEG and `target_chunk[idx-l]` as a PNG.
`reencI` / `reencT` model the save-then-open codec round trip (JPEG
encode + RGB convert, PNG encode + L convert); indexing past the end of
a chunk raises `IndexError`. -/
def append (reencI : α → α) (reencT : β → β) (s : RawSt α β)
    (input_chunk : List α) (target_chunk : List β) : Except Err (RawSt α β) :=
  let l := s.pos * s.config.chunk_size
  let r := min s.config.dataset_size (l + s.config.chunk_size)
  if r - l ≤ input_chunk.length ∧ r - l ≤ target_chunk.length then
    Except.ok { s with
      inputFiles := fun i =>
        if l ≤ i ∧ i < r then (input_chunk[i - l]?).map reencI else s.inputFiles i,
      targetFiles := fun i =>
        if l ≤ i ∧ i < r then (target_chunk[i - l]?).map reencT else s.targetFiles i,
      pos := s.pos + 1 }
  else Except.error Err.indexError

/-- Method `storage_raw.lock`: only assigns `_storage_raw__locked = True`. -/
def lock (s : RawSt α β) : RawSt α β :=
  { s with subLocked := some true }

/-- Method `storage_raw.__getitem__`: same mangled-flag gating; then opens the
two per-index files, failing with `FileNotFoundError` when missing. -/
def getitem (s : RawSt α β) (idx : Nat) : Except Err (α × β) :=
  match s.subLocked with
  | none => Except.error (Err.attributeErrorMissing "_storage_raw__locked")
  | some false => Except.error (Err.attributeErrorRaised "Raw file is not locked. Access denied.")
  | some true =>
    match s.inputFiles idx, s.targetFiles idx with
    | some a, some b => Except.ok (a, b)
    | none, _ => Except.error (Err.fileNotFoundError "input")
    | some _, none => Except.error (Err.fileNotFoundError "target")

/-- One contract operation on a raw backend. -/
def step (reencI : α → α) (reencT : β → β) (s : RawSt α β) :
    Op α β → Except Err (RawSt α β)
  | Op.append ic tc => append reencI reencT s ic tc
  | Op.lock => Except.ok (lock s)
  | Op.get idx => (getitem s idx).map (fun _ => s)

/-- A sequence of contract operations on a raw backend. -/
def run (reencI : α → α) (reencT : β → β) (s : RawSt α β) (ops : List (Op α β)) :
    Except Err (RawSt α β) :=
  List.foldlM (step reencI reencT) s ops

/-- Successive append calls. -/
def runAppends (reencI : α → α) (reencT : β → β) (s : RawSt α β)
    (chunks : List (List α × List β)) : Except Err (RawSt α β) :=
  List.foldlM (fun st c => append reencI reencT st c.1 c.2) s chunks

/-- Full write/lock/read pipeline on a fresh directory tree. -/
def pipeline (reencI : α → α) (reencT : β → β) (cfg : Config)
    (xs : List α) (ys : List β) (idx : Nat) : Except Err (α × β) := do
  let s0 ← init cfg { inputDirPresent := false, targetDirPresent := false }
  let s1 ← runAppends reencI reencT s0 (chunksFor cfg.chunk_size xs ys (numChunksFor cfg.dataset_size cfg.chunk_size))
  getitem (lock s1) idx

end storage_raw

end DLStorage

namespace DLStorage

lemma pyTake_ofNat (xs : List γ) (k : Nat) : pyTake xs (k : Int) = xs.take k := by
  simp [pyTake]

lemma pyTake_sub_of_le (xs : List γ) (l r : Nat) (h : l ≤ r) :
    pyTake xs ((r : Int) - (l : Int)) = xs.take (r - l) := by
  have h1 : ((r : Int) - (l : Int)) = ((r - l : Nat) : Int) := by omega
  rw [h1, pyTake_ofNat]

lemma sliceAssign_exact (arr : List γ) (l r : Nat) (src : List γ)
    (hl : l ≤ arr.length) (hr : r ≤ arr.length) (hlr : l ≤ r)
    (hsrc : src.length = r - l) :
    sliceAssign arr l r src = Except.ok (arr.take l ++ src ++ arr.drop r) := by
  simp only [sliceAssign, Nat.min_eq_left hl, Nat.min_eq_left hr, Nat.max_eq_right hlr]
  rw [if_pos hsrc]

lemma sliceAssign_empty (arr : List γ) (l r : Nat) (hl : arr.length ≤ l) :
    sliceAssign arr l r [] = Except.ok arr := by
  have h1 : min l arr.length = arr.length := Nat.min_eq_right hl
  have h2 : max arr.length (min r arr.length) = arr.length := Nat.max_eq_left (Nat.min_le_right _ _)
  simp only [sliceAssign, h1, h2]
  simp

lemma sliceAssign_single_of_len_le (arr : List γ) (l r : Nat) (x : γ)
    (hl : arr.length ≤ l) :
    sliceAssign arr l r [x] = Except.ok arr := by
  have h1 : min l arr.length = arr.length := Nat.min_eq_right hl
  have h2 : max arr.length (min r arr.length) = arr.length := Nat.max_eq_left (Nat.min_le_right _ _)
  simp only [sliceAssign, h1, h2]
  rw [if_neg (by simp)]
  simp

lemma sliceAssign_err (arr : List γ) (l r : Nat) (src : List γ)
    (hne : src.length ≠ max (min l arr.length) (min r arr.length) - min l arr.length)
    (h2 : 2 ≤ src.length) :
    sliceAssign arr l r src = Except.error Err.valueErrorBroadcast := by
  simp only [sliceAssign]
  rw [if_neg hne]
  match src, h2 with
  | a :: b :: rest, _ => rfl

lemma h5SliceAssign_exact (arr : List γ) (l r : Nat) (src : List γ)
    (hl : l ≤ arr.length) (hr : r ≤ arr.length) (hlr : l ≤ r)
    (hsrc : src.length = r - l) :
    h5SliceAssign arr l r src = Except.ok (arr.take l ++ src ++ arr.drop r) := by
  simp only [h5SliceAssign, Nat.min_eq_left hl, Nat.min_eq_left hr, Nat.max_eq_right hlr]
  by_cases hd : r - l = 0
  · rw [if_pos hd]
    have hleq : l = r := by omega
    have hnil : src = [] := List.eq_nil_of_length_eq_zero (by omega)
    subst hleq
    rw [hnil, List.append_nil, List.take_append_drop]
  · rw [if_neg hd, if_pos hsrc]

lemma h5SliceAssign_skip (arr : List γ) (l r : Nat) (src : List γ)
    (hl : arr.length ≤ l) :
    h5SliceAssign arr l r src = Except.ok arr := by
  have h1 : min l arr.length = arr.length := Nat.min_eq_right hl
  have h2 : max arr.length (min r arr.length) = arr.length := Nat.max_eq_left (Nat.min_le_right _ _)
  simp only [h5SliceAssign, h1, h2]
  rw [if_pos (by omega)]

lemma getElem?_splice (arr : List γ) (l r : Nat) (src : List γ)
    (hl : l ≤ arr.length) (_hr : r ≤ arr.length) (hlr : l ≤ r)
    (hsrc : src.length = r - l) (i : Nat) :
    (arr.take l ++ src ++ arr.drop r)[i]? =
      if l ≤ i ∧ i < r then src[i - l]? else arr[i]? := by
  have hlen1 : (arr.take l).length = l := by rw [List.length_take]; omega
  have hlen2 : (arr.take l ++ src).length = r := by
    rw [List.length_append, hlen1, hsrc]; omega
  by_cases h1 : i < l
  · rw [if_neg (by omega)]
    rw [List.getElem?_append_left (by rw [hlen2]; omega),
      List.getElem?_append_left (by rw [hlen1]; omega),
      List.getElem?_take_of_lt h1]
  · by_cases h2 : i < r
    · rw [if_pos ⟨by omega, h2⟩]
      rw [List.getElem?_append_left (by rw [hlen2]; omega),
        List.getElem?_append_right (by rw [hlen1]; omega), hlen1]
    · rw [if_neg (by omega)]
      rw [List.getElem?_append_right (by rw [hlen2]; omega), hlen2, List.getElem?_drop]
      have h3 : r + (i - r) = i := by omega
      rw [h3]

lemma splice_take_drop (xs z : List γ) (l r : Nat)
    (hxz : xs.length = z.length) (hlr : l ≤ r) (hr : r ≤ z.length) :
    (xs.take l ++ z.drop l).take l ++ (xs.drop l).take (r - l) ++ (xs.take l ++ z.drop l).drop r
      = xs.take r ++ z.drop r := by
  have hl : l ≤ z.length := le_trans hlr hr
  have hlen1 : (xs.take l).length = l := by rw [List.length_take]; omega
  have e1 : (xs.take l ++ z.drop l).take l = xs.take l := by
    rw [List.take_append_eq_append_take, hlen1]
    simp [List.take_take]
  have e2 : (xs.take l ++ z.drop l).drop r = z.drop r := by
    rw [List.drop_append_eq_append_drop, hlen1]
    have h4 : (xs.take l).drop r = [] := by
      apply List.drop_eq_nil_iff.mpr; rw [hlen1]; omega
    rw [h4, List.drop_drop]
    have h5 : l + (r - l) = r := by omega
    rw [h5]
    simp
  have e3 : xs.take l ++ (xs.drop l).take (r - l) = xs.take r := by
    rw [← List.take_add]
    have h6 : l + (r - l) = r := by omega
    rw [h6]
  rw [e1, e2, e3]

lemma numChunks_mul_ge (N C : Nat) (hC : 0 < C) :
    N ≤ numChunksFor N C * C := by
  unfold numChunksFor
  have h := Nat.div_add_mod (N + C - 1) C
  have hm : (N + C - 1) % C < C := Nat.mod_lt _ hC
  have hcomm : ((N + C - 1) / C) * C = C * ((N + C - 1) / C) := Nat.mul_comm _ _
  omega

lemma lt_of_lt_numChunks (k N C : Nat) (hC : 0 < C) (hk : k < numChunksFor N C) :
    k * C < N := by
  unfold numChunksFor at hk
  have h1 : (k + 1) * C ≤ N + C - 1 :=
    (Nat.le_div_iff_mul_le hC).mp (Nat.succ_le_of_lt hk)
  have h2 : (k + 1) * C = k * C + C := by ring
  omega

lemma Except_bind_ok (x : γ) (f : γ → Except Err δ) :
    (Except.ok x >>= f : Except Err δ) = f x := rfl

namespace storage_hdf5

lemma h5_append_eq (s : ArrSt α β) (ic : List α) (tc : List β)
    (hli : s.input.length = s.config.dataset_size)
    (hlt : s.target.length = s.config.dataset_size)
    (hpos : s.pos * s.config.chunk_size ≤ s.config.dataset_size)
    (hic : r_idx s.pos s.config.chunk_size s.config.dataset_size - s.pos * s.config.chunk_size ≤ ic.length)
    (htc : r_idx s.pos s.config.chunk_size s.config.dataset_size - s.pos * s.config.chunk_size ≤ tc.length) :
    append s ic tc = Except.ok
      { s with
        input := s.input.take (s.pos * s.config.chunk_size)
          ++ ic.take (r_idx s.pos s.config.chunk_size s.config.dataset_size - s.pos * s.config.chunk_size)
          ++ s.input.drop (r_idx s.pos s.config.chunk_size s.config.dataset_size),
        target := s.target.take (s.pos * s.config.chunk_size)
          ++ tc.take (r_idx s.pos s.config.chunk_size s.config.dataset_size - s.pos * s.config.chunk_size)
          ++ s.target.drop (r_idx s.pos s.config.chunk_size s.config.dataset_size),
        pos := s.pos + 1 } := by
  have hlr : s.pos * s.config.chunk_size ≤ r_idx s.pos s.config.chunk_size s.config.dataset_size :=
    le_min hpos (Nat.le_add_right _ _)
  have hsrci : (ic.take (r_idx s.pos s.config.chunk_size s.config.dataset_size - s.pos * s.config.chunk_size)).length
      = r_idx s.pos s.config.chunk_size s.config.dataset_size - s.pos * s.config.chunk_size := by
    rw [List.length_take]; omega
  have hsrct : (tc.take (r_idx s.pos s.config.chunk_size s.config.dataset_size - s.pos * s.config.chunk_size)).length
      = r_idx s.pos s.config.chunk_size s.config.dataset_size - s.pos * s.config.chunk_size := by
    rw [List.length_take]; omega
  have hru : r_idx s.pos s.config.chunk_size s.config.dataset_size
      = min s.config.dataset_size (s.pos * s.config.chunk_size + s.config.chunk_size) := rfl
  simp only [append]
  rw [← hru, pyTake_sub_of_le ic _ _ hlr, pyTake_sub_of_le tc _ _ hlr,
    h5SliceAssign_exact s.input _ _ _ (by omega) (by omega) hlr hsrci,
    h5SliceAssign_exact s.target _ _ _ (by omega) (by omega) hlr hsrct]
  rfl

lemma h5_runAppends_cons (s : ArrSt α β) (c : List α × List β) (cs : List (List α × List β)) :
    runAppends s (c :: cs) = (append s c.1 c.2) >>= fun s1 => runAppends s1 cs := by
  simp [runAppends, List.foldlM_cons]

lemma h5_runAppends_covering (cfg : Config) (z : List α) (w : List β)
    (xs : List α) (ys : List β) (hC : 0 < cfg.chunk_size)
    (hz : z.length = cfg.dataset_size) (hw : w.length = cfg.dataset_size)
    (hxs : xs.length = cfg.dataset_size) (hys : ys.length = cfg.dataset_size) :
    ∀ (m k : Nat) (s : ArrSt α β), s.config = cfg → s.pos = k →
      k + m ≤ numChunksFor cfg.dataset_size cfg.chunk_size →
      s.input = xs.take (min (k * cfg.chunk_size) cfg.dataset_size)
        ++ z.drop (min (k * cfg.chunk_size) cfg.dataset_size) →
      s.target = ys.take (min (k * cfg.chunk_size) cfg.dataset_size)
        ++ w.drop (min (k * cfg.chunk_size) cfg.dataset_size) →
      runAppends s ((List.range' k m).map (fun j =>
          ((xs.drop (j * cfg.chunk_size)).take cfg.chunk_size,
           (ys.drop (j * cfg.chunk_size)).take cfg.chunk_size))) =
        Except.ok
          { config := cfg, pos := k + m, baseLocked := s.baseLocked, subLocked := s.subLocked,
            input := xs.take (min ((k + m) * cfg.chunk_size) cfg.dataset_size)
              ++ z.drop (min ((k + m) * cfg.chunk_size) cfg.dataset_size),
            target := ys.take (min ((k + m) * cfg.chunk_size) cfg.dataset_size)
              ++ w.drop (min ((k + m) * cfg.chunk_size) cfg.dataset_size) } := by
  intro m
  induction m with
  | zero =>
    intro k s hcfg hpos _hbound hinp htg
    simp only [List.range', List.map_nil, runAppends, List.foldlM, Nat.add_zero]
    cases s with
    | mk c p b sl inp tg =>
      simp only at hcfg hpos hinp htg
      subst hcfg hpos hinp htg
      rfl
  | succ m ih =>
    intro k s hcfg hpos hbound hinp htg
    have hkK : k < numChunksFor cfg.dataset_size cfg.chunk_size := by omega
    have hkC : k * cfg.chunk_size < cfg.dataset_size :=
      lt_of_lt_numChunks _ _ _ hC hkK
    have hmin : min (k * cfg.chunk_size) cfg.dataset_size = k * cfg.chunk_size :=
      Nat.min_eq_left (le_of_lt hkC)
    rw [hmin] at hinp htg
    have hli : s.input.length = s.config.dataset_size := by
      rw [hinp, hcfg, List.length_append, List.length_take, List.length_drop]
      omega
    have hlt : s.target.length = s.config.dataset_size := by
      rw [htg, hcfg, List.length_append, List.length_take, List.length_drop]
      omega
    have hpos2 : s.pos * s.config.chunk_size ≤ s.config.dataset_size := by
      rw [hpos, hcfg]; exact le_of_lt hkC
    have hrl : r_idx k cfg.chunk_size cfg.dataset_size - k * cfg.chunk_size ≤ cfg.chunk_size := by
      unfold r_idx l_idx; omega
    have hic : r_idx s.pos s.config.chunk_size s.config.dataset_size - s.pos * s.config.chunk_size
        ≤ ((xs.drop (k * cfg.chunk_size)).take cfg.chunk_size).length := by
      rw [hpos, hcfg, List.length_take, List.length_drop, hxs]
      unfold r_idx l_idx; omega
    have htc : r_idx s.pos s.config.chunk_size s.config.dataset_size - s.pos * s.config.chunk_size
        ≤ ((ys.drop (k * cfg.chunk_size)).take cfg.chunk_size).length := by
      rw [hpos, hcfg, List.length_take, List.length_drop, hys]
      unfold r_idx l_idx; omega
    rw [List.range'_succ, List.map_cons, h5_runAppends_cons,
      h5_append_eq s _ _ hli hlt hpos2 hic htc, Except_bind_ok]
    have hchunkI : ((xs.drop (k * cfg.chunk_size)).take cfg.chunk_size).take
        (r_idx k cfg.chunk_size cfg.dataset_size - k * cfg.chunk_size)
        = (xs.drop (k * cfg.chunk_size)).take (r_idx k cfg.chunk_size cfg.dataset_size - k * cfg.chunk_size) := by
      rw [List.take_take, Nat.min_eq_left hrl]
    have hchunkT : ((ys.drop (k * cfg.chunk_size)).take cfg.chunk_size).take
        (r_idx k cfg.chunk_size cfg.dataset_size - k * cfg.chunk_size)
        = (ys.drop (k * cfg.chunk_size)).take (r_idx k cfg.chunk_size cfg.dataset_size - k * cfg.chunk_size) := by
      rw [List.take_take, Nat.min_eq_left hrl]
    have hlr2 : k * cfg.chunk_size ≤ r_idx k cfg.chunk_size cfg.dataset_size := by
      unfold r_idx l_idx; omega
    have hr2 : r_idx k cfg.chunk_size cfg.dataset_size
        = min ((k + 1) * cfg.chunk_size) cfg.dataset_size := by
      unfold r_idx l_idx
      have h2 : (k + 1) * cfg.chunk_size = k * cfg.chunk_size + cfg.chunk_size := by ring
      omega
    have hinp2 : s.input.take (s.pos * s.config.chunk_size)
        ++ ((xs.drop (k * cfg.chunk_size)).take cfg.chunk_size).take
            (r_idx s.pos s.config.chunk_size s.config.dataset_size - s.pos * s.config.chunk_size)
        ++ s.input.drop (r_idx s.pos s.config.chunk_size s.config.dataset_size)
        = xs.take (min ((k + 1) * cfg.chunk_size) cfg.dataset_size)
          ++ z.drop (min ((k + 1) * cfg.chunk_size) cfg.dataset_size) := by
      rw [hpos, hcfg, hinp, hchunkI,
        splice_take_drop xs z (k * cfg.chunk_size) (r_idx k cfg.chunk_size cfg.dataset_size)
          (by omega) hlr2 (by omega), hr2]
    have htg2 : s.target.take (s.pos * s.config.chunk_size)
        ++ ((ys.drop (k * cfg.chunk_size)).take cfg.chunk_size).take
            (r_idx s.pos s.config.chunk_size s.config.dataset_size - s.pos * s.config.chunk_size)
        ++ s.target.drop (r_idx s.pos s.config.chunk_size s.config.dataset_size)
        = ys.take (min ((k + 1) * cfg.chunk_size) cfg.dataset_size)
          ++ w.drop (min ((k + 1) * cfg.chunk_size) cfg.dataset_size) := by
      rw [hpos, hcfg, htg, hchunkT,
        splice_take_drop ys w (k * cfg.chunk_size) (r_idx k cfg.chunk_size cfg.dataset_size)
          (by omega) hlr2 (by omega), hr2]
    have H := ih (k + 1)
      { s with
        input := s.input.take (s.pos * s.config.chunk_size)
          ++ ((xs.drop (k * cfg.chunk_size)).take cfg.chunk_size).take
              (r_idx s.pos s.config.chunk_size s.config.dataset_size - s.pos * s.config.chunk_size)
          ++ s.input.drop (r_idx s.pos s.config.chunk_size s.config.dataset_size),
        target := s.target.take (s.pos * s.config.chunk_size)
          ++ ((ys.drop (k * cfg.chunk_size)).take cfg.chunk_size).take
              (r_idx s.pos s.config.chunk_size s.config.dataset_size - s.pos * s.config.chunk_size)
          ++ s.target.drop (r_idx s.pos s.config.chunk_size s.config.dataset_size),
        pos := s.pos + 1 }
      hcfg (by simp [hpos]) (by omega) hinp2 htg2
    rw [H]
    have harith : k + 1 + m = k + (m + 1) := by omega
    rw [harith]

end storage_hdf5

end DLStorage

namespace DLStorage

lemma take_length_drop_length (xs z : List γ) (h : xs.length = z.length) :
    xs.take z.length ++ z.drop z.length = xs := by
  rw [List.drop_length, List.append_nil, ← h, List.take_length]

namespace storage_hdf5

lemma h5_runAppends_full (cfg : Config) (zi : α) (zt : β) (xs : List α) (ys : List β)
    (hC : 0 < cfg.chunk_size)
    (hxs : xs.length = cfg.dataset_size) (hys : ys.length = cfg.dataset_size) :
    runAppends (init cfg zi zt none none)
        (chunksFor cfg.chunk_size xs ys (numChunksFor cfg.dataset_size cfg.chunk_size)) =
      Except.ok
        { config := cfg, pos := numChunksFor cfg.dataset_size cfg.chunk_size,
          baseLocked := false, subLocked := none, input := xs, target := ys } := by
  have hz : (List.replicate cfg.dataset_size zi).length = cfg.dataset_size := by simp
  have hw : (List.replicate cfg.dataset_size zt).length = cfg.dataset_size := by simp
  have H := h5_runAppends_covering cfg (List.replicate cfg.dataset_size zi)
    (List.replicate cfg.dataset_size zt) xs ys hC hz hw hxs hys
    (numChunksFor cfg.dataset_size cfg.chunk_size) 0
    (init cfg zi zt none none) rfl rfl (by omega) (by simp [init]) (by simp [init])
  rw [chunksFor, List.range_eq_range']
  have hminN : min ((0 + numChunksFor cfg.dataset_size cfg.chunk_size) * cfg.chunk_size) cfg.dataset_size
      = cfg.dataset_size := by
    rw [Nat.zero_add]
    have := numChunks_mul_ge cfg.dataset_size cfg.chunk_size hC
    omega
  rw [hminN] at H
  have e1 : xs.take cfg.dataset_size ++ (List.replicate cfg.dataset_size zi).drop cfg.dataset_size = xs := by
    have d1 : (List.replicate cfg.dataset_size zi).drop cfg.dataset_size = [] := by simp
    rw [d1, List.append_nil, ← hxs, List.take_length]
  have e2 : ys.take cfg.dataset_size ++ (List.replicate cfg.dataset_size zt).drop cfg.dataset_size = ys := by
    have d2 : (List.replicate cfg.dataset_size zt).drop cfg.dataset_size = [] := by simp
    rw [d2, List.append_nil, ← hys, List.take_length]
  rw [e1, e2] at H
  simpa [init] using H

theorem h5_roundtrip (cfg : Config) (zi : α) (zt : β) (xs : List α) (ys : List β)
    (hC : 0 < cfg.chunk_size)
    (hxs : xs.length = cfg.dataset_size) (hys : ys.length = cfg.dataset_size)
    (idx : Nat) (h1 : idx < xs.length) (h2 : idx < ys.length) :
    pipeline cfg zi zt xs ys idx = Except.ok (xs[idx], ys[idx]) := by
  rw [pipeline, h5_runAppends_full cfg zi zt xs ys hC hxs hys, Except_bind_ok]
  simp only [lock, getitem]
  rw [List.getElem?_eq_getElem h1, List.getElem?_eq_getElem h2]

end storage_hdf5

end DLStorage

namespace DLStorage

namespace storage_raw

lemma raw_append_eq (reencI : α → α) (reencT : β → β) (s : RawSt α β)
    (ic : List α) (tc : List β)
    (hic : min s.config.dataset_size (s.pos * s.config.chunk_size + s.config.chunk_size)
      - s.pos * s.config.chunk_size ≤ ic.length)
    (htc : min s.config.dataset_size (s.pos * s.config.chunk_size + s.config.chunk_size)
      - s.pos * s.config.chunk_size ≤ tc.length) :
    append reencI reencT s ic tc = Except.ok
      { s with
        inputFiles := fun i =>
          if s.pos * s.config.chunk_size ≤ i
              ∧ i < min s.config.dataset_size (s.pos * s.config.chunk_size + s.config.chunk_size)
          then (ic[i - s.pos * s.config.chunk_size]?).map reencI else s.inputFiles i,
        targetFiles := fun i =>
          if s.pos * s.config.chunk_size ≤ i
              ∧ i < min s.config.dataset_size (s.pos * s.config.chunk_size + s.config.chunk_size)
          then (tc[i - s.pos * s.config.chunk_size]?).map reencT else s.targetFiles i,
        pos := s.pos + 1 } := by
  simp only [append]
  rw [if_pos ⟨hic, htc⟩]

lemma raw_runAppends_cons (reencI : α → α) (reencT : β → β) (s : RawSt α β)
    (c : List α × List β) (cs : List (List α × List β)) :
    runAppends reencI reencT s (c :: cs)
      = (append reencI reencT s c.1 c.2) >>= fun s1 => runAppends reencI reencT s1 cs := by
  simp [runAppends, List.foldlM_cons]

lemma raw_runAppends_covering (reencI : α → α) (reencT : β → β) (cfg : Config)
    (xs : List α) (ys : List β) (hC : 0 < cfg.chunk_size)
    (hxs : xs.length = cfg.dataset_size) (hys : ys.length = cfg.dataset_size) :
    ∀ (m k : Nat) (s : RawSt α β), s.config = cfg → s.pos = k →
      k + m ≤ numChunksFor cfg.dataset_size cfg.chunk_size →
      (∀ i, s.inputFiles i = if i < min (k * cfg.chunk_size) cfg.dataset_size
        then (xs[i]?).map reencI else none) →
      (∀ i, s.targetFiles i = if i < min (k * cfg.chunk_size) cfg.dataset_size
        then (ys[i]?).map reencT else none) →
      ∃ s1, runAppends reencI reencT s ((List.range' k m).map (fun j =>
          ((xs.drop (j * cfg.chunk_size)).take cfg.chunk_size,
           (ys.drop (j * cfg.chunk_size)).take cfg.chunk_size))) = Except.ok s1
        ∧ s1.config = cfg ∧ s1.pos = k + m
        ∧ s1.baseLocked = s.baseLocked ∧ s1.subLocked = s.subLocked
        ∧ (∀ i, s1.inputFiles i = if i < min ((k + m) * cfg.chunk_size) cfg.dataset_size
            then (xs[i]?).map reencI else none)
        ∧ (∀ i, s1.targetFiles i = if i < min ((k + m) * cfg.chunk_size) cfg.dataset_size
            then (ys[i]?).map reencT else none) := by
  intro m
  induction m with
  | zero =>
    intro k s hcfg hpos _hbound hinp htg
    refine ⟨s, ?_, hcfg, by omega, rfl, rfl, ?_, ?_⟩
    · rfl
    · simpa using hinp
    · simpa using htg
  | succ m ih =>
    intro k s hcfg hpos hbound hinp htg
    have hkK : k < numChunksFor cfg.dataset_size cfg.chunk_size := by omega
    have hkC : k * cfg.chunk_size < cfg.dataset_size :=
      lt_of_lt_numChunks _ _ _ hC hkK
    have hic : min s.config.dataset_size (s.pos * s.config.chunk_size + s.config.chunk_size)
        - s.pos * s.config.chunk_size ≤ ((xs.drop (k * cfg.chunk_size)).take cfg.chunk_size).length := by
      rw [hpos, hcfg, List.length_take, List.length_drop, hxs]
      omega
    have htc : min s.config.dataset_size (s.pos * s.config.chunk_size + s.config.chunk_size)
        - s.pos * s.config.chunk_size ≤ ((ys.drop (k * cfg.chunk_size)).take cfg.chunk_size).length := by
      rw [hpos, hcfg, List.length_take, List.length_drop, hys]
      omega
    rw [List.range'_succ, List.map_cons, raw_runAppends_cons,
      raw_append_eq reencI reencT s _ _ hic htc, Except_bind_ok]
    have hr2 : min cfg.dataset_size (k * cfg.chunk_size + cfg.chunk_size)
        = min ((k + 1) * cfg.chunk_size) cfg.dataset_size := by
      have h2 : (k + 1) * cfg.chunk_size = k * cfg.chunk_size + cfg.chunk_size := by ring
      omega
    have hinp2 : ∀ i,
        (if s.pos * s.config.chunk_size ≤ i
            ∧ i < min s.config.dataset_size (s.pos * s.config.chunk_size + s.config.chunk_size)
        then (((xs.drop (k * cfg.chunk_size)).take cfg.chunk_size)[i - s.pos * s.config.chunk_size]?).map reencI
        else s.inputFiles i)
        = if i < min ((k + 1) * cfg.chunk_size) cfg.dataset_size then (xs[i]?).map reencI else none := by
      intro i
      rw [hpos, hcfg, ← hr2]
      by_cases hin : k * cfg.chunk_size ≤ i ∧ i < min cfg.dataset_size (k * cfg.chunk_size + cfg.chunk_size)
      · rw [if_pos hin, if_pos (by omega)]
        rw [List.getElem?_take_of_lt (by omega), List.getElem?_drop]
        have harg : k * cfg.chunk_size + (i - k * cfg.chunk_size) = i := by omega
        rw [harg]
      · rw [if_neg hin, hinp i]
        by_cases hlt : i < k * cfg.chunk_size
        · rw [if_pos (by omega), if_pos (by omega)]
        · rw [if_neg (by omega), if_neg (by omega)]
    have htg2 : ∀ i,
        (if s.pos * s.config.chunk_size ≤ i
            ∧ i < min s.config.dataset_size (s.pos * s.config.chunk_size + s.config.chunk_size)
        then (((ys.drop (k * cfg.chunk_size)).take cfg.chunk_size)[i - s.pos * s.config.chunk_size]?).map reencT
        else s.targetFiles i)
        = if i < min ((k + 1) * cfg.chunk_size) cfg.dataset_size then (ys[i]?).map reencT else none := by
      intro i
      rw [hpos, hcfg, ← hr2]
      by_cases hin : k * cfg.chunk_size ≤ i ∧ i < min cfg.dataset_size (k * cfg.chunk_size + cfg.chunk_size)
      · rw [if_pos hin, if_pos (by omega)]
        rw [List.getElem?_take_of_lt (by omega), List.getElem?_drop]
        have harg : k * cfg.chunk_size + (i - k * cfg.chunk_size) = i := by omega
        rw [harg]
      · rw [if_neg hin, htg i]
        by_cases hlt : i < k * cfg.chunk_size
        · rw [if_pos (by omega), if_pos (by omega)]
        · rw [if_neg (by omega), if_neg (by omega)]
    obtain ⟨s1, hrun, hc1, hp1, hb1, hs1, hi1, ht1⟩ := ih (k + 1)
      { s with
        inputFiles := fun i =>
          if s.pos * s.config.chunk_size ≤ i
              ∧ i < min s.config.dataset_size (s.pos * s.config.chunk_size + s.config.chunk_size)
          then (((xs.drop (k * cfg.chunk_size)).take cfg.chunk_size)[i - s.pos * s.config.chunk_size]?).map reencI
          else s.inputFiles i,
        targetFiles := fun i =>
          if s.pos * s.config.chunk_size ≤ i
              ∧ i < min s.config.dataset_size (s.pos * s.config.chunk_size + s.config.chunk_size)
          then (((ys.drop (k * cfg.chunk_size)).take cfg.chunk_size)[i - s.pos * s.config.chunk_size]?).map reencT
          else s.targetFiles i,
        pos := s.pos + 1 }
      hcfg (by simp [hpos]) (by omega) hinp2 htg2
    refine ⟨s1, hrun, hc1, by omega, hb1, hs1, ?_, ?_⟩
    · intro i
      rw [hi1 i]
      have harith : k + 1 + m = k + (m + 1) := by omega
      rw [harith]
    · intro i
      rw [ht1 i]
      have harith : k + 1 + m = k + (m + 1) := by omega
      rw [harith]

end storage_raw

end DLStorage

namespace DLStorage

namespace storage_raw

theorem raw_roundtrip (reencI : α → α) (reencT : β → β)
    (hI : ∀ a, reencI a = a) (hT : ∀ b, reencT b = b)
    (cfg : Config) (xs : List α) (ys : List β) (hC : 0 < cfg.chunk_size)
    (hxs : xs.length = cfg.dataset_size) (hys : ys.length = cfg.dataset_size)
    (idx : Nat) (h1 : idx < xs.length) (h2 : idx < ys.length) :
    pipeline reencI reencT cfg xs ys idx = Except.ok (xs[idx], ys[idx]) := by
  obtain ⟨s1, hrun, hc1, hp1, hb1, hs1, hi1, ht1⟩ :=
    raw_runAppends_covering reencI reencT cfg xs ys hC hxs hys
      (numChunksFor cfg.dataset_size cfg.chunk_size) 0
      { config := cfg, pos := 0, baseLocked := false, subLocked := none,
        inputFiles := fun _ => none, targetFiles := fun _ => none }
      rfl rfl (by omega) (by intro i; simp) (by intro i; simp)
  have hKN : min ((0 + numChunksFor cfg.dataset_size cfg.chunk_size) * cfg.chunk_size) cfg.dataset_size
      = cfg.dataset_size := by
    rw [Nat.zero_add]
    have := numChunks_mul_ge cfg.dataset_size cfg.chunk_size hC
    omega
  rw [hKN] at hi1 ht1
  have hfi : s1.inputFiles idx = some xs[idx] := by
    rw [hi1 idx, if_pos (by omega), List.getElem?_eq_getElem h1, Option.map_some', hI]
  have hft : s1.targetFiles idx = some ys[idx] := by
    rw [ht1 idx, if_pos (by omega), List.getElem?_eq_getElem h2, Option.map_some', hT]
  have init_fresh : (init cfg { inputDirPresent := false, targetDirPresent := false }
      : Except Err (RawSt α β)) = Except.ok
      { config := cfg, pos := 0, baseLocked := false, subLocked := none,
        inputFiles := fun _ => none, targetFiles := fun _ => none } := rfl
  simp only [pipeline]
  rw [init_fresh, Except_bind_ok, chunksFor, List.range_eq_range', hrun, Except_bind_ok]
  simp only [getitem, lock]
  rw [hfi, hft]

end storage_raw

end DLStorage

namespace DLStorage

lemma bind_eq_ok {x : Except Err γ} {f : γ → Except Err δ} {d : δ}
    (h : (x >>= f) = Except.ok d) : ∃ c, x = Except.ok c ∧ f c = Except.ok d := by
  cases x with
  | ok c => exact ⟨c, rfl, h⟩
  | error e =>
    rw [show (Except.error e >>= f : Except Err δ) = Except.error e from rfl] at h
    cases h

namespace storage_hdf5

lemma h5_append_frame (s : ArrSt α β) (ic : List α) (tc : List β) (s' : ArrSt α β)
    (h : append s ic tc = Except.ok s') :
    s'.pos = s.pos + 1 ∧ s'.subLocked = s.subLocked
      ∧ s'.config = s.config ∧ s'.baseLocked = s.baseLocked := by
  simp only [append] at h
  obtain ⟨i2, _hA, h1⟩ := bind_eq_ok h
  obtain ⟨t2, _hB, h2⟩ := bind_eq_ok h1
  cases h2
  exact ⟨rfl, rfl, rfl, rfl⟩

lemma h5_getitem_none (s : ArrSt α β) (idx : Nat) (h : s.subLocked = none) :
    getitem s idx = Except.error (Err.attributeErrorMissing "_storage_hdf5__locked") := by
  simp [getitem, h]

lemma h5_getitem_locked_not_nlf (s : ArrSt α β) (idx : Nat) (h : s.subLocked = some true) :
    isNotLockedFailure (getitem s idx) = false := by
  simp only [getitem, h]
  rcases s.input[idx]? with _ | a <;> rcases s.target[idx]? with _ | b <;> rfl

lemma h5_getitem_raised_imp (s : ArrSt α β) (idx : Nat) (msg : String)
    (h : getitem s idx = Except.error (Err.attributeErrorRaised msg)) :
    s.subLocked = some false := by
  rcases hs : s.subLocked with _ | b
  · rw [h5_getitem_none s idx hs] at h
    cases h
  · cases b
    · rfl
    · have := h5_getitem_locked_not_nlf s idx hs
      rw [h] at this
      simp [isNotLockedFailure] at this

lemma h5_step_cases (s : ArrSt α β) (op : Op α β) (s' : ArrSt α β)
    (h : step s op = Except.ok s') :
    (op = Op.lock ∧ s'.subLocked = some true) ∨ (s'.subLocked = s.subLocked ∧ s'.config = s.config) := by
  cases op with
  | append ic tc =>
    right
    have := h5_append_frame s ic tc s' h
    exact ⟨this.2.1, this.2.2.1⟩
  | lock =>
    left
    simp only [step] at h
    cases h
    exact ⟨rfl, rfl⟩
  | get idx =>
    right
    simp only [step] at h
    cases hg : getitem s idx <;> rw [hg] at h <;> simp [Except.map] at h
    · cases h
      exact ⟨rfl, rfl⟩

lemma h5_run_no_lock (ops : List (Op α β)) :
    ∀ (s s' : ArrSt α β), run s ops = Except.ok s' → Op.lock ∉ ops →
      s'.subLocked = s.subLocked := by
  induction ops with
  | nil =>
    intro s s' h _
    cases h
    rfl
  | cons op rest ih =>
    intro s s' h hmem
    obtain ⟨s1, h1, h2⟩ := bind_eq_ok h
    have hop : op ≠ Op.lock := fun he => hmem (he ▸ List.mem_cons_self _ _)
    rcases h5_step_cases s op s1 h1 with ⟨he, _⟩ | ⟨hsl, _⟩
    · exact absurd he hop
    · rw [ih s1 s' h2 (fun hm => hmem (List.mem_cons_of_mem _ hm)), hsl]

lemma h5_run_locked_mono (ops : List (Op α β)) :
    ∀ (s s' : ArrSt α β), run s ops = Except.ok s' → s.subLocked = some true →
      s'.subLocked = some true := by
  induction ops with
  | nil =>
    intro s s' h hl
    cases h
    exact hl
  | cons op rest ih =>
    intro s s' h hl
    obtain ⟨s1, h1, h2⟩ := bind_eq_ok h
    rcases h5_step_cases s op s1 h1 with ⟨_, hs⟩ | ⟨hs, _⟩
    · exact ih s1 s' h2 hs
    · exact ih s1 s' h2 (hs.trans hl)

lemma h5_run_lock_mem (ops : List (Op α β)) :
    ∀ (s s' : ArrSt α β), run s ops = Except.ok s' → Op.lock ∈ ops →
      s'.subLocked = some true := by
  induction ops with
  | nil =>
    intro s s' _ hmem
    cases hmem
  | cons op rest ih =>
    intro s s' h hmem
    obtain ⟨s1, h1, h2⟩ := bind_eq_ok h
    rcases h5_step_cases s op s1 h1 with ⟨_, hs⟩ | ⟨hs, _⟩
    · exact h5_run_locked_mono rest s1 s' h2 hs
    · rcases List.mem_cons.mp hmem with he | hm
      · rcases h5_step_cases s op s1 h1 with ⟨_, hs2⟩ | _
        · exact h5_run_locked_mono rest s1 s' h2 hs2
        · subst he
          simp only [step] at h1
          cases h1
          exact h5_run_locked_mono rest _ s' h2 rfl
      · exact ih s1 s' h2 hm

lemma h5_run_not_false (ops : List (Op α β)) :
    ∀ (s s' : ArrSt α β), run s ops = Except.ok s' → s.subLocked ≠ some false →
      s'.subLocked ≠ some false := by
  induction ops with
  | nil =>
    intro s s' h hne
    cases h
    exact hne
  | cons op rest ih =>
    intro s s' h hne
    obtain ⟨s1, h1, h2⟩ := bind_eq_ok h
    rcases h5_step_cases s op s1 h1 with ⟨_, hs⟩ | ⟨hs, _⟩
    · exact ih s1 s' h2 (by rw [hs]; simp)
    · exact ih s1 s' h2 (by rw [hs]; exact hne)

lemma h5_runAppends_pos (chunks : List (List α × List β)) :
    ∀ (s s' : ArrSt α β), runAppends s chunks = Except.ok s' →
      s'.pos = s.pos + chunks.length := by
  induction chunks with
  | nil =>
    intro s s' h
    cases h
    simp
  | cons c rest ih =>
    intro s s' h
    rw [h5_runAppends_cons] at h
    obtain ⟨s1, h1, h2⟩ := bind_eq_ok h
    have := h5_append_frame s c.1 c.2 s1 h1
    have hr := ih s1 s' h2
    rw [hr, this.1, List.length_cons]
    omega

end storage_hdf5

end DLStorage

namespace DLStorage

namespace storage_memmap

lemma mm_append_frame (s : ArrSt α β) (ic : List α) (tc : List β) (s' : ArrSt α β)
    (h : append s ic tc = Except.ok s') :
    s'.pos = s.pos + 1 ∧ s'.subLocked = s.subLocked
      ∧ s'.config = s.config ∧ s'.baseLocked = s.baseLocked := by
  simp only [append] at h
  obtain ⟨i2, _hA, h1⟩ := bind_eq_ok h
  obtain ⟨t2, _hB, h2⟩ := bind_eq_ok h1
  cases h2
  exact ⟨rfl, rfl, rfl, rfl⟩

lemma mm_getitem_none (s : ArrSt α β) (idx : Nat) (h : s.subLocked = none) :
    getitem s idx = Except.error (Err.attributeErrorMissing "_storage_memmap__locked") := by
  simp [getitem, h]

lemma mm_getitem_locked_not_nlf (s : ArrSt α β) (idx : Nat) (h : s.subLocked = some true) :
    isNotLockedFailure (getitem s idx) = false := by
  simp only [getitem, h]
  rcases s.input[idx]? with _ | a <;> rcases s.target[idx]? with _ | b <;> rfl

lemma mm_getitem_raised_imp (s : ArrSt α β) (idx : Nat) (msg : String)
    (h : getitem s idx = Except.error (Err.attributeErrorRaised msg)) :
    s.subLocked = some false := by
  rcases hs : s.subLocked with _ | b
  · rw [mm_getitem_none s idx hs] at h
    cases h
  · cases b
    · rfl
    · have := mm_getitem_locked_not_nlf s idx hs
      rw [h] at this
      simp [isNotLockedFailure] at this

lemma mm_step_cases (s : ArrSt α β) (op : Op α β) (s' : ArrSt α β)
    (h : step s op = Except.ok s') :
    (op = Op.lock ∧ s'.subLocked = some true) ∨ (s'.subLocked = s.subLocked ∧ s'.config = s.config) := by
  cases op with
  | append ic tc =>
    right
    have := mm_append_frame s ic tc s' h
    exact ⟨this.2.1, this.2.2.1⟩
  | lock =>
    left
    simp only [step] at h
    cases h
    exact ⟨rfl, rfl⟩
  | get idx =>
    right
    simp only [step] at h
    cases hg : getitem s idx <;> rw [hg] at h <;> simp [Except.map] at h
    · cases h
      exact ⟨rfl, rfl⟩

lemma mm_run_no_lock (ops : List (Op α β)) :
    ∀ (s s' : ArrSt α β), run s ops = Except.ok s' → Op.lock ∉ ops →
      s'.subLocked = s.subLocked := by
  induction ops with
  | nil =>
    intro s s' h _
    cases h
    rfl
  | cons op rest ih =>
    intro s s' h hmem
    obtain ⟨s1, h1, h2⟩ := bind_eq_ok h
    have hop : op ≠ Op.lock := fun he => hmem (he ▸ List.mem_cons_self _ _)
    rcases mm_step_cases s op s1 h1 with ⟨he, _⟩ | ⟨hsl, _⟩
    · exact absurd he hop
    · rw [ih s1 s' h2 (fun hm => hmem (List.mem_cons_of_mem _ hm)), hsl]

lemma mm_run_locked_mono (ops : List (Op α β)) :
    ∀ (s s' : ArrSt α β), run s ops = Except.ok s' → s.subLocked = some true →
      s'.subLocked = some true := by
  induction ops with
  | nil =>
    intro s s' h hl
    cases h
    exact hl
  | cons op rest ih =>
    intro s s' h hl
    obtain ⟨s1, h1, h2⟩ := bind_eq_ok h
    rcases mm_step_cases s op s1 h1 with ⟨_, hs⟩ | ⟨hs, _⟩
    · exact ih s1 s' h2 hs
    · exact ih s1 s' h2 (hs.trans hl)

lemma mm_run_lock_mem (ops : List (Op α β)) :
    ∀ (s s' : ArrSt α β), run s ops = Except.ok s' → Op.lock ∈ ops →
      s'.subLocked = some true := by
  induction ops with
  | nil =>
    intro s s' _ hmem
    cases hmem
  | cons op rest ih =>
    intro s s' h hmem
    obtain ⟨s1, h1, h2⟩ := bind_eq_ok h
    rcases mm_step_cases s op s1 h1 with ⟨_, hs⟩ | ⟨hs, _⟩
    · exact mm_run_locked_mono rest s1 s' h2 hs
    · rcases List.mem_cons.mp hmem with he | hm
      · subst he
        simp only [step] at h1
        cases h1
        exact mm_run_locked_mono rest _ s' h2 rfl
      · exact ih s1 s' h2 hm

lemma mm_run_not_false (ops : List (Op α β)) :
    ∀ (s s' : ArrSt α β), run s ops = Except.ok s' → s.subLocked ≠ some false →
      s'.subLocked ≠ some false := by
  induction ops with
  | nil =>
    intro s s' h hne
    cases h
    exact hne
  | cons op rest ih =>
    intro s s' h hne
    obtain ⟨s1, h1, h2⟩ := bind_eq_ok h
    rcases mm_step_cases s op s1 h1 with ⟨_, hs⟩ | ⟨hs, _⟩
    · exact ih s1 s' h2 (by rw [hs]; simp)
    · exact ih s1 s' h2 (by rw [hs]; exact hne)

lemma mm_runAppends_pos (chunks : List (List α × List β)) :
    ∀ (s s' : ArrSt α β), runAppends s chunks = Except.ok s' →
      s'.pos = s.pos + chunks.length := by
  induction chunks with
  | nil =>
    intro s s' h
    cases h
    simp
  | cons c rest ih =>
    intro s s' h
    have hcons : runAppends s (c :: rest) = (append s c.1 c.2) >>= fun s1 => runAppends s1 rest := by
      simp [runAppends, List.foldlM_cons]
    rw [hcons] at h
    obtain ⟨s1, h1, h2⟩ := bind_eq_ok h
    have := mm_append_frame s c.1 c.2 s1 h1
    have hr := ih s1 s' h2
    rw [hr, this.1, List.length_cons]
    omega

end storage_memmap

namespace storage_raw

lemma raw_append_frame (reencI : α → α) (reencT : β → β) (s : RawSt α β)
    (ic : List α) (tc : List β) (s' : RawSt α β)
    (h : append reencI reencT s ic tc = Except.ok s') :
    s'.pos = s.pos + 1 ∧ s'.subLocked = s.subLocked
      ∧ s'.config = s.config ∧ s'.baseLocked = s.baseLocked := by
  simp only [append] at h
  split at h
  · cases h
    exact ⟨rfl, rfl, rfl, rfl⟩
  · cases h

lemma raw_getitem_none (s : RawSt α β) (idx : Nat) (h : s.subLocked = none) :
    getitem s idx = Except.error (Err.attributeErrorMissing "_storage_raw__locked") := by
  simp [getitem, h]

lemma raw_getitem_locked_not_nlf (s : RawSt α β) (idx : Nat) (h : s.subLocked = some true) :
    isNotLockedFailure (getitem s idx) = false := by
  simp only [getitem, h]
  rcases s.inputFiles idx with _ | a <;> rcases s.targetFiles idx with _ | b <;> rfl

lemma raw_getitem_raised_imp (s : RawSt α β) (idx : Nat) (msg : String)
    (h : getitem s idx = Except.error (Err.attributeErrorRaised msg)) :
    s.subLocked = some false := by
  rcases hs : s.subLocked with _ | b
  · rw [raw_getitem_none s idx hs] at h
    cases h
  · cases b
    · rfl
    · have := raw_getitem_locked_not_nlf s idx hs
      rw [h] at this
      simp [isNotLockedFailure] at this

lemma raw_step_cases (reencI : α → α) (reencT : β → β) (s : RawSt α β)
    (op : Op α β) (s' : RawSt α β)
    (h : step reencI reencT s op = Except.ok s') :
    (op = Op.lock ∧ s'.subLocked = some true) ∨ (s'.subLocked = s.subLocked ∧ s'.config = s.config) := by
  cases op with
  | append ic tc =>
    right
    have := raw_append_frame reencI reencT s ic tc s' h
    exact ⟨this.2.1, this.2.2.1⟩
  | lock =>
    left
    simp only [step] at h
    cases h
    exact ⟨rfl, rfl⟩
  | get idx =>
    right
    simp only [step] at h
    cases hg : getitem s idx <;> rw [hg] at h <;> simp [Except.map] at h
    · cases h
      exact ⟨rfl, rfl⟩

lemma raw_run_no_lock (reencI : α → α) (reencT : β → β) (ops : List (Op α β)) :
    ∀ (s s' : RawSt α β), run reencI reencT s ops = Except.ok s' → Op.lock ∉ ops →
      s'.subLocked = s.subLocked := by
  induction ops with
  | nil =>
    intro s s' h _
    cases h
    rfl
  | cons op rest ih =>
    intro s s' h hmem
    obtain ⟨s1, h1, h2⟩ := bind_eq_ok h
    have hop : op ≠ Op.lock := fun he => hmem (he ▸ List.mem_cons_self _ _)
    rcases raw_step_cases reencI reencT s op s1 h1 with ⟨he, _⟩ | ⟨hsl, _⟩
    · exact absurd he hop
    · rw [ih s1 s' h2 (fun hm => hmem (List.mem_cons_of_mem _ hm)), hsl]

lemma raw_run_locked_mono (reencI : α → α) (reencT : β → β) (ops : List (Op α β)) :
    ∀ (s s' : RawSt α β), run reencI reencT s ops = Except.ok s' → s.subLocked = some true →
      s'.subLocked = some true := by
  induction ops with
  | nil =>
    intro s s' h hl
    cases h
    exact hl
  | cons op rest ih =>
    intro s s' h hl
    obtain ⟨s1, h1, h2⟩ := bind_eq_ok h
    rcases raw_step_cases reencI reencT s op s1 h1 with ⟨_, hs⟩ | ⟨hs, _⟩
    · exact ih s1 s' h2 hs
    · exact ih s1 s' h2 (hs.trans hl)

lemma raw_run_lock_mem (reencI : α → α) (reencT : β → β) (ops : List (Op α β)) :
    ∀ (s s' : RawSt α β), run reencI reencT s ops = Except.ok s' → Op.lock ∈ ops →
      s'.subLocked = some true := by
  induction ops with
  | nil =>
    intro s s' _ hmem
    cases hmem
  | cons op rest ih =>
    intro s s' h hmem
    obtain ⟨s1, h1, h2⟩ := bind_eq_ok h
    rcases raw_step_cases reencI reencT s op s1 h1 with ⟨_, hs⟩ | ⟨hs, _⟩
    · exact raw_run_locked_mono reencI reencT rest s1 s' h2 hs
    · rcases List.mem_cons.mp hmem with he | hm
      · subst he
        simp only [step] at h1
        cases h1
        exact raw_run_locked_mono reencI reencT rest _ s' h2 rfl
      · exact ih s1 s' h2 hm

lemma raw_run_not_false (reencI : α → α) (reencT : β → β) (ops : List (Op α β)) :
    ∀ (s s' : RawSt α β), run reencI reencT s ops = Except.ok s' → s.subLocked ≠ some false →
      s'.subLocked ≠ some false := by
  induction ops with
  | nil =>
    intro s s' h hne
    cases h
    exact hne
  | cons op rest ih =>
    intro s s' h hne
    obtain ⟨s1, h1, h2⟩ := bind_eq_ok h
    rcases raw_step_cases reencI reencT s op s1 h1 with ⟨_, hs⟩ | ⟨hs, _⟩
    · exact ih s1 s' h2 (by rw [hs]; simp)
    · exact ih s1 s' h2 (by rw [hs]; exact hne)

lemma raw_runAppends_pos (reencI : α → α) (reencT : β → β) (chunks : List (List α × List β)) :
    ∀ (s s' : RawSt α β), runAppends reencI reencT s chunks = Except.ok s' →
      s'.pos = s.pos + chunks.length := by
  induction chunks with
  | nil =>
    intro s s' h
    cases h
    simp
  | cons c rest ih =>
    intro s s' h
    rw [raw_runAppends_cons] at h
    obtain ⟨s1, h1, h2⟩ := bind_eq_ok h
    have := raw_append_frame reencI reencT s c.1 c.2 s1 h1
    have hr := ih s1 s' h2
    rw [hr, this.1, List.length_cons]
    omega

end storage_raw

end DLStorage

namespace DLStorage

namespace storage_hdf5

lemma h5_append_getElem (s : ArrSt α β) (ic : List α) (tc : List β)
    (hli : s.input.length = s.config.dataset_size)
    (hlt : s.target.length = s.config.dataset_size)
    (hpos : s.pos * s.config.chunk_size ≤ s.config.dataset_size)
    (hic : r_idx s.pos s.config.chunk_size s.config.dataset_size - l_idx s.pos s.config.chunk_size ≤ ic.length)
    (htc : r_idx s.pos s.config.chunk_size s.config.dataset_size - l_idx s.pos s.config.chunk_size ≤ tc.length) :
    ∃ s', append s ic tc = Except.ok s' ∧ s'.pos = s.pos + 1
      ∧ (∀ i, s'.input[i]? =
          if l_idx s.pos s.config.chunk_size ≤ i ∧ i < r_idx s.pos s.config.chunk_size s.config.dataset_size
          then ic[i - l_idx s.pos s.config.chunk_size]? else s.input[i]?)
      ∧ (∀ i, s'.target[i]? =
          if l_idx s.pos s.config.chunk_size ≤ i ∧ i < r_idx s.pos s.config.chunk_size s.config.dataset_size
          then tc[i - l_idx s.pos s.config.chunk_size]? else s.target[i]?) := by
  have hic2 : min s.config.dataset_size (s.pos * s.config.chunk_size + s.config.chunk_size)
      - s.pos * s.config.chunk_size ≤ ic.length := hic
  have htc2 : min s.config.dataset_size (s.pos * s.config.chunk_size + s.config.chunk_size)
      - s.pos * s.config.chunk_size ≤ tc.length := htc
  refine ⟨_, h5_append_eq s ic tc hli hlt hpos hic htc, rfl, ?_, ?_⟩
  · intro i
    simp only [l_idx, r_idx]
    show (s.input.take (s.pos * s.config.chunk_size)
        ++ ic.take (min s.config.dataset_size (s.pos * s.config.chunk_size + s.config.chunk_size)
            - s.pos * s.config.chunk_size)
        ++ s.input.drop (min s.config.dataset_size (s.pos * s.config.chunk_size + s.config.chunk_size)))[i]? = _
    rw [getElem?_splice s.input (s.pos * s.config.chunk_size)
      (min s.config.dataset_size (s.pos * s.config.chunk_size + s.config.chunk_size)) _
      (by omega) (by omega) (by omega)
      (by rw [List.length_take]; omega) i]
    by_cases hin : s.pos * s.config.chunk_size ≤ i
        ∧ i < min s.config.dataset_size (s.pos * s.config.chunk_size + s.config.chunk_size)
    · rw [if_pos hin, if_pos hin, List.getElem?_take_of_lt (by omega)]
    · rw [if_neg hin, if_neg hin]
  · intro i
    simp only [l_idx, r_idx]
    show (s.target.take (s.pos * s.config.chunk_size)
        ++ tc.take (min s.config.dataset_size (s.pos * s.config.chunk_size + s.config.chunk_size)
            - s.pos * s.config.chunk_size)
        ++ s.target.drop (min s.config.dataset_size (s.pos * s.config.chunk_size + s.config.chunk_size)))[i]? = _
    rw [getElem?_splice s.target (s.pos * s.config.chunk_size)
      (min s.config.dataset_size (s.pos * s.config.chunk_size + s.config.chunk_size)) _
      (by omega) (by omega) (by omega)
      (by rw [List.length_take]; omega) i]
    by_cases hin : s.pos * s.config.chunk_size ≤ i
        ∧ i < min s.config.dataset_size (s.pos * s.config.chunk_size + s.config.chunk_size)
    · rw [if_pos hin, if_pos hin, List.getElem?_take_of_lt (by omega)]
    · rw [if_neg hin, if_neg hin]

lemma h5_append_post_coverage (s : ArrSt α β) (ic : List α) (tc : List β)
    (hcovI : s.input.length ≤ s.pos * s.config.chunk_size)
    (hcovT : s.target.length ≤ s.pos * s.config.chunk_size) :
    append s ic tc = Except.ok { s with pos := s.pos + 1 } := by
  simp only [append]
  rw [h5SliceAssign_skip _ _ _ _ hcovI, h5SliceAssign_skip _ _ _ _ hcovT]
  rfl

end storage_hdf5

namespace storage_memmap

lemma mm_append_post_coverage_empty (s : ArrSt α β) (ic : List α) (tc : List β)
    (hcovI : s.input.length ≤ s.pos * s.config.chunk_size)
    (hcovT : s.target.length ≤ s.pos * s.config.chunk_size)
    (hip : pyTake ic (((min s.config.dataset_size (s.pos * s.config.chunk_size + s.config.chunk_size) : Nat) : Int)
      - ((s.pos * s.config.chunk_size : Nat) : Int)) = [])
    (htp : pyTake tc (((min s.config.dataset_size (s.pos * s.config.chunk_size + s.config.chunk_size) : Nat) : Int)
      - ((s.pos * s.config.chunk_size : Nat) : Int)) = []) :
    append s ic tc = Except.ok { s with pos := s.pos + 1 } := by
  simp only [append]
  rw [hip, htp, sliceAssign_empty _ _ _ hcovI, sliceAssign_empty _ _ _ hcovT]
  rfl

lemma mm_append_post_coverage_single (s : ArrSt α β) (ic : List α) (tc : List β)
    (a : α) (b : β)
    (hcovI : s.input.length ≤ s.pos * s.config.chunk_size)
    (hcovT : s.target.length ≤ s.pos * s.config.chunk_size)
    (hip : pyTake ic (((min s.config.dataset_size (s.pos * s.config.chunk_size + s.config.chunk_size) : Nat) : Int)
      - ((s.pos * s.config.chunk_size : Nat) : Int)) = [a])
    (htp : pyTake tc (((min s.config.dataset_size (s.pos * s.config.chunk_size + s.config.chunk_size) : Nat) : Int)
      - ((s.pos * s.config.chunk_size : Nat) : Int)) = [b]) :
    append s ic tc = Except.ok { s with pos := s.pos + 1 } := by
  simp only [append]
  rw [hip, htp, sliceAssign_single_of_len_le _ _ _ _ hcovI,
    sliceAssign_single_of_len_le _ _ _ _ hcovT]
  rfl

lemma mm_append_post_coverage_err (s : ArrSt α β) (ic : List α) (tc : List β)
    (hcovI : s.input.length ≤ s.pos * s.config.chunk_size)
    (hip : 2 ≤ (pyTake ic (((min s.config.dataset_size (s.pos * s.config.chunk_size + s.config.chunk_size) : Nat) : Int)
      - ((s.pos * s.config.chunk_size : Nat) : Int))).length) :
    append s ic tc = Except.error Err.valueErrorBroadcast := by
  simp only [append]
  rw [sliceAssign_err _ _ _ _ ?hne hip]
  · rfl
  case hne =>
    have h1 : min (s.pos * s.config.chunk_size) s.input.length = s.input.length :=
      Nat.min_eq_right hcovI
    rw [h1, Nat.max_eq_left (Nat.min_le_right _ _)]
    omega

end storage_memmap

namespace storage_raw

lemma raw_init_ok (cfg : Config) (fs : FS) (s0 : RawSt α β)
    (h : init cfg fs = Except.ok s0) :
    s0 = { config := cfg, pos := 0, baseLocked := false, subLocked := none,
           inputFiles := fun _ => none, targetFiles := fun _ => none } := by
  simp only [init] at h
  split at h
  · cases h
  · split at h
    · cases h
    · cases h
      rfl

lemma raw_append_post_coverage (reencI : α → α) (reencT : β → β) (s : RawSt α β)
    (ic : List α) (tc : List β)
    (hcov : s.config.dataset_size ≤ s.pos * s.config.chunk_size) :
    ∃ s', append reencI reencT s ic tc = Except.ok s' ∧ s'.pos = s.pos + 1
      ∧ (∀ i, s'.inputFiles i = s.inputFiles i)
      ∧ (∀ i, s'.targetFiles i = s.targetFiles i) := by
  have happ : append reencI reencT s ic tc = Except.ok
      { s with
        inputFiles := fun i =>
          if s.pos * s.config.chunk_size ≤ i
              ∧ i < min s.config.dataset_size (s.pos * s.config.chunk_size + s.config.chunk_size)
          then (ic[i - s.pos * s.config.chunk_size]?).map reencI else s.inputFiles i,
        targetFiles := fun i =>
          if s.pos * s.config.chunk_size ≤ i
              ∧ i < min s.config.dataset_size (s.pos * s.config.chunk_size + s.config.chunk_size)
          then (tc[i - s.pos * s.config.chunk_size]?).map reencT else s.targetFiles i,
        pos := s.pos + 1 } := by
    simp only [append]
    rw [if_pos ⟨by omega, by omega⟩]
  refine ⟨_, happ, rfl, ?_, ?_⟩
  · intro i
    show (if s.pos * s.config.chunk_size ≤ i
        ∧ i < min s.config.dataset_size (s.pos * s.config.chunk_size + s.config.chunk_size)
      then (ic[i - s.pos * s.config.chunk_size]?).map reencI else s.inputFiles i) = s.inputFiles i
    rw [if_neg (by omega)]
  · intro i
    show (if s.pos * s.config.chunk_size ≤ i
        ∧ i < min s.config.dataset_size (s.pos * s.config.chunk_size + s.config.chunk_size)
      then (tc[i - s.pos * s.config.chunk_size]?).map reencT else s.targetFiles i) = s.targetFiles i
    rw [if_neg (by omega)]

end storage_raw

end DLStorage

namespace DLStorage

/-- Claim C5: the claim states the artifact location equals the
configured source-file path minus exactly the trailing ".txt". The code
uses Python `rstrip(".txt")`, which strips the trailing character set,
so for the path "test.txt" the derived name is "tes", not "test": the
claim fails on the code and the spec wording ("with its extension
stripped") is clearly the intent, so this is a code bug. -/
theorem C5_extension_strip_bug :
    derivedPath "test.txt" = "tes" ∧ derivedPath "test.txt" ≠ "test" := by
  constructor
  · rfl
  · decide

/-- Claim C4, counterexample: with configured `N = 1`, `(H, W) = (2, 2)`
and on-disk shapes `(1, 3, 3, 3)` / `(1, 3, 3)` — mutually consistent
but disagreeing with the configured spatial shape — `dataset_size`
succeeds instead of failing with `ShapeMismatch`, refuting the claim
that a disagreement with `(H, W)` is always detected. -/
theorem C4_counterexample :
    storage_hdf5.dataset_size
        { dataset_size := 1, targetH := 2, targetW := 2, chunk_size := 1, ann_file := "a" }
        { inputShape := [1, 3, 3, 3], targetShape := [1, 3, 3] }
      = Except.ok 1
    ∧ ([1, 3, 3] : List Nat) ≠
        [(1 : Nat), 2, 2] := by
  constructor
  · rfl
  · decide

/-- Claim C4, amended: every backend's `dataset_size` returns the
configured `N` exactly when its assertions pass, and the assertions
check only that the two artifacts' extents are mutually consistent
(input shape minus the channel axis equals the target shape; equal
directory counts for the flat-file backend) and that the checked
leading extent (target's first extent for the container backend,
input's first for the mapped backend, the file count for the flat-file
backend) equals `N`; the configured `(H, W)` is never validated. -/
theorem C4_size_validation_amended (cfg : Config) (sh : DiskShapes) (nInput nTarget : Nat) :
    (storage_hdf5.dataset_size cfg sh = Except.ok cfg.dataset_size
      ↔ sh.inputShape.dropLast = sh.targetShape ∧ sh.targetShape.head? = some cfg.dataset_size)
    ∧ (storage_memmap.dataset_size cfg sh = Except.ok cfg.dataset_size
      ↔ sh.inputShape.dropLast = sh.targetShape ∧ sh.inputShape.head? = some cfg.dataset_size)
    ∧ (storage_raw.dataset_size cfg nInput nTarget = Except.ok cfg.dataset_size
      ↔ nInput = nTarget ∧ nInput = cfg.dataset_size)
    ∧ (∀ v, storage_hdf5.dataset_size cfg sh = Except.ok v → v = cfg.dataset_size)
    ∧ (∀ v, storage_memmap.dataset_size cfg sh = Except.ok v → v = cfg.dataset_size)
    ∧ (∀ v, storage_raw.dataset_size cfg nInput nTarget = Except.ok v → v = cfg.dataset_size) := by
  refine ⟨?_, ?_, ?_, ?_, ?_, ?_⟩
  · by_cases h1 : sh.inputShape.dropLast = sh.targetShape
    · rcases h2 : sh.targetShape with _ | ⟨n, rest⟩
      · simp [storage_hdf5.dataset_size, h1, h2]
      · by_cases h3 : n = cfg.dataset_size
        · simp [storage_hdf5.dataset_size, h1, h2, h3]
        · simp [storage_hdf5.dataset_size, h1, h2, h3]
    · simp [storage_hdf5.dataset_size, h1]
  · by_cases h1 : sh.inputShape.dropLast = sh.targetShape
    · rcases h2 : sh.inputShape with _ | ⟨n, rest⟩
      · simp [storage_memmap.dataset_size, h1, h2]
        split <;> simp
      · by_cases h3 : n = cfg.dataset_size
        · simp [storage_memmap.dataset_size, h1, h2, h3]
        · simp [storage_memmap.dataset_size, h1, h2, h3]
    · simp [storage_memmap.dataset_size, h1]
  · by_cases h1 : nInput = nTarget
    · by_cases h2 : nInput = cfg.dataset_size
      · simp [storage_raw.dataset_size, h1, h2]
      · simp [storage_raw.dataset_size, h1, h2]
    · simp [storage_raw.dataset_size, h1]
  · intro v hv
    simp only [storage_hdf5.dataset_size] at hv
    split at hv
    · split at hv
      · cases hv
      · split at hv
        · cases hv
          rfl
        · cases hv
    · cases hv
  · intro v hv
    simp only [storage_memmap.dataset_size] at hv
    split at hv
    · split at hv
      · cases hv
      · split at hv
        · cases hv
          rfl
        · cases hv
    · cases hv
  · intro v hv
    simp only [storage_raw.dataset_size] at hv
    split at hv
    · split at hv
      · cases hv
        rfl
      · cases hv
    · cases hv

/-- Claim C4, witness: the amended characterization evaluated at a
concrete configuration and matching on-disk shapes. -/
theorem C4_witness :
    (storage_hdf5.dataset_size
        { dataset_size := 2, targetH := 3, targetW := 3, chunk_size := 1, ann_file := "a" }
        { inputShape := [2, 3, 3, 3], targetShape := [2, 3, 3] } = Except.ok 2
      ↔ ([2, 3, 3, 3] : List Nat).dropLast = [2, 3, 3] ∧ ([2, 3, 3] : List Nat).head? = some 2)
    ∧ (2 : Nat) = 2 := by
  constructor
  · exact (C4_size_validation_amended
      { dataset_size := 2, targetH := 3, targetW := 3, chunk_size := 1, ann_file := "a" }
      { inputShape := [2, 3, 3, 3], targetShape := [2, 3, 3] } 2 2).1
  · exact (C4_size_validation_amended
      { dataset_size := 2, targetH := 3, targetW := 3, chunk_size := 1, ann_file := "a" }
      { inputShape := [2, 3, 3, 3], targetShape := [2, 3, 3] } 2 2).2.2.2.1 2 (by rfl)

/-- Claim C6: constructing the flat-file backend succeeds (with a fresh
state, before any append) exactly when neither the `Input/` nor the
`Target/` directory already exists; if either exists, construction
fails with the `FileExistsError` (`DirectoryConflict`) raised by
`os.makedirs(..., exist_ok=False)`. -/
theorem C6_directory_conflict {α β : Type} (cfg : Config) (fs : FS) :
    ((storage_raw.init cfg fs : Except Err (RawSt α β)) = Except.ok
        { config := cfg, pos := 0, baseLocked := false, subLocked := none,
          inputFiles := fun _ => none, targetFiles := fun _ => none }
      ↔ fs.inputDirPresent = false ∧ fs.targetDirPresent = false)
    ∧ ((∃ p, (storage_raw.init cfg fs : Except Err (RawSt α β)) = Except.error (Err.fileExistsError p))
      ↔ (fs.inputDirPresent = true ∨ fs.targetDirPresent = true)) := by
  rcases fs with ⟨bi, bt⟩
  cases bi <;> cases bt <;> simp [storage_raw.init]

/-- Claim C7: constructing the container backend never raises for
pre-existing arrays: the `ValueError` from `create_dataset` is
swallowed (the constructor is a total function in this model), existing
contents of either array are reused unvalidated — for any `xs`,
including lengths disagreeing with the configuration — and the new
instance starts with `pos = 0` and no subclass lock flag. -/
theorem C7_container_reuse {α β : Type} (cfg : Config) (zi : α) (zt : β)
    (inputArr : Option (List α)) (targetArr : Option (List β))
    (xs : List α) (ysl : List β) :
    (storage_hdf5.init cfg zi zt inputArr targetArr).pos = 0
    ∧ (storage_hdf5.init cfg zi zt inputArr targetArr).subLocked = none
    ∧ (storage_hdf5.init cfg zi zt inputArr targetArr).baseLocked = false
    ∧ (storage_hdf5.init cfg zi zt (some xs) (some ysl)).input = xs
    ∧ (storage_hdf5.init cfg zi zt (some xs) (some ysl)).target = ysl
    ∧ (storage_hdf5.init cfg zi zt none none).input = List.replicate cfg.dataset_size zi
    ∧ (storage_hdf5.init cfg zi zt none none).target = List.replicate cfg.dataset_size zt :=
  ⟨rfl, rfl, rfl, rfl, rfl, rfl, rfl⟩

end DLStorage

namespace DLStorage

namespace storage_memmap

lemma mm_append_eq (s : ArrSt α β) (ic : List α) (tc : List β)
    (hli : s.input.length = s.config.dataset_size)
    (hlt : s.target.length = s.config.dataset_size)
    (hpos : s.pos * s.config.chunk_size ≤ s.config.dataset_size)
    (hic : r_idx s.pos s.config.chunk_size s.config.dataset_size - s.pos * s.config.chunk_size ≤ ic.length)
    (htc : r_idx s.pos s.config.chunk_size s.config.dataset_size - s.pos * s.config.chunk_size ≤ tc.length) :
    append s ic tc = Except.ok
      { s with
        input := s.input.take (s.pos * s.config.chunk_size)
          ++ ic.take (r_idx s.pos s.config.chunk_size s.config.dataset_size - s.pos * s.config.chunk_size)
          ++ s.input.drop (r_idx s.pos s.config.chunk_size s.config.dataset_size),
        target := s.target.take (s.pos * s.config.chunk_size)
          ++ tc.take (r_idx s.pos s.config.chunk_size s.config.dataset_size - s.pos * s.config.chunk_size)
          ++ s.target.drop (r_idx s.pos s.config.chunk_size s.config.dataset_size),
        pos := s.pos + 1 } := by
  have hlr : s.pos * s.config.chunk_size ≤ r_idx s.pos s.config.chunk_size s.config.dataset_size :=
    le_min hpos (Nat.le_add_right _ _)
  have hsrci : (ic.take (r_idx s.pos s.config.chunk_size s.config.dataset_size - s.pos * s.config.chunk_size)).length
      = r_idx s.pos s.config.chunk_size s.config.dataset_size - s.pos * s.config.chunk_size := by
    rw [List.length_take]; omega
  have hsrct : (tc.take (r_idx s.pos s.config.chunk_size s.config.dataset_size - s.pos * s.config.chunk_size)).length
      = r_idx s.pos s.config.chunk_size s.config.dataset_size - s.pos * s.config.chunk_size := by
    rw [List.length_take]; omega
  have hru : r_idx s.pos s.config.chunk_size s.config.dataset_size
      = min s.config.dataset_size (s.pos * s.config.chunk_size + s.config.chunk_size) := rfl
  simp only [append]
  rw [← hru, pyTake_sub_of_le ic _ _ hlr, pyTake_sub_of_le tc _ _ hlr,
    sliceAssign_exact s.input _ _ _ (by omega) (by omega) hlr hsrci,
    sliceAssign_exact s.target _ _ _ (by omega) (by omega) hlr hsrct]
  rfl

lemma mm_runAppends_cons (s : ArrSt α β) (c : List α × List β) (cs : List (List α × List β)) :
    runAppends s (c :: cs) = (append s c.1 c.2) >>= fun s1 => runAppends s1 cs := by
  simp [runAppends, List.foldlM_cons]

lemma mm_runAppends_covering (cfg : Config) (z : List α) (w : List β)
    (xs : List α) (ys : List β) (hC : 0 < cfg.chunk_size)
    (hz : z.length = cfg.dataset_size) (hw : w.length = cfg.dataset_size)
    (hxs : xs.length = cfg.dataset_size) (hys : ys.length = cfg.dataset_size) :
    ∀ (m k : Nat) (s : ArrSt α β), s.config = cfg → s.pos = k →
      k + m ≤ numChunksFor cfg.dataset_size cfg.chunk_size →
      s.input = xs.take (min (k * cfg.chunk_size) cfg.dataset_size)
        ++ z.drop (min (k * cfg.chunk_size) cfg.dataset_size) →
      s.target = ys.take (min (k * cfg.chunk_size) cfg.dataset_size)
        ++ w.drop (min (k * cfg.chunk_size) cfg.dataset_size) →
      runAppends s ((List.range' k m).map (fun j =>
          ((xs.drop (j * cfg.chunk_size)).take cfg.chunk_size,
           (ys.drop (j * cfg.chunk_size)).take cfg.chunk_size))) =
        Except.ok
          { config := cfg, pos := k + m, baseLocked := s.baseLocked, subLocked := s.subLocked,
            input := xs.take (min ((k + m) * cfg.chunk_size) cfg.dataset_size)
              ++ z.drop (min ((k + m) * cfg.chunk_size) cfg.dataset_size),
            target := ys.take (min ((k + m) * cfg.chunk_size) cfg.dataset_size)
              ++ w.drop (min ((k + m) * cfg.chunk_size) cfg.dataset_size) } := by
  intro m
  induction m with
  | zero =>
    intro k s hcfg hpos _hbound hinp htg
    simp only [List.range', List.map_nil, runAppends, List.foldlM, Nat.add_zero]
    cases s with
    | mk c p b sl inp tg =>
      simp only at hcfg hpos hinp htg
      subst hcfg hpos hinp htg
      rfl
  | succ m ih =>
    intro k s hcfg hpos hbound hinp htg
    have hkK : k < numChunksFor cfg.dataset_size cfg.chunk_size := by omega
    have hkC : k * cfg.chunk_size < cfg.dataset_size :=
      lt_of_lt_numChunks _ _ _ hC hkK
    have hmin : min (k * cfg.chunk_size) cfg.dataset_size = k * cfg.chunk_size :=
      Nat.min_eq_left (le_of_lt hkC)
    rw [hmin] at hinp htg
    have hli : s.input.length = s.config.dataset_size := by
      rw [hinp, hcfg, List.length_append, List.length_take, List.length_drop]
      omega
    have hlt : s.target.length = s.config.dataset_size := by
      rw [htg, hcfg, List.length_append, List.length_take, List.length_drop]
      omega
    have hpos2 : s.pos * s.config.chunk_size ≤ s.config.dataset_size := by
      rw [hpos, hcfg]; exact le_of_lt hkC
    have hrl : r_idx k cfg.chunk_size cfg.dataset_size - k * cfg.chunk_size ≤ cfg.chunk_size := by
      unfold r_idx l_idx; omega
    have hic : r_idx s.pos s.config.chunk_size s.config.dataset_size - s.pos * s.config.chunk_size
        ≤ ((xs.drop (k * cfg.chunk_size)).take cfg.chunk_size).length := by
      rw [hpos, hcfg, List.length_take, List.length_drop, hxs]
      unfold r_idx l_idx; omega
    have htc : r_idx s.pos s.config.chunk_size s.config.dataset_size - s.pos * s.config.chunk_size
        ≤ ((ys.drop (k * cfg.chunk_size)).take cfg.chunk_size).length := by
      rw [hpos, hcfg, List.length_take, List.length_drop, hys]
      unfold r_idx l_idx; omega
    rw [List.range'_succ, List.map_cons, mm_runAppends_cons,
      mm_append_eq s _ _ hli hlt hpos2 hic htc, Except_bind_ok]
    have hchunkI : ((xs.drop (k * cfg.chunk_size)).take cfg.chunk_size).take
        (r_idx k cfg.chunk_size cfg.dataset_size - k * cfg.chunk_size)
        = (xs.drop (k * cfg.chunk_size)).take (r_idx k cfg.chunk_size cfg.dataset_size - k * cfg.chunk_size) := by
      rw [List.take_take, Nat.min_eq_left hrl]
    have hchunkT : ((ys.drop (k * cfg.chunk_size)).take cfg.chunk_size).take
        (r_idx k cfg.chunk_size cfg.dataset_size - k * cfg.chunk_size)
        = (ys.drop (k * cfg.chunk_size)).take (r_idx k cfg.chunk_size cfg.dataset_size - k * cfg.chunk_size) := by
      rw [List.take_take, Nat.min_eq_left hrl]
    have hlr2 : k * cfg.chunk_size ≤ r_idx k cfg.chunk_size cfg.dataset_size := by
      unfold r_idx l_idx; omega
    have hr2 : r_idx k cfg.chunk_size cfg.dataset_size
        = min ((k + 1) * cfg.chunk_size) cfg.dataset_size := by
      unfold r_idx l_idx
      have h2 : (k + 1) * cfg.chunk_size = k * cfg.chunk_size + cfg.chunk_size := by ring
      omega
    have hinp2 : s.input.take (s.pos * s.config.chunk_size)
        ++ ((xs.drop (k * cfg.chunk_size)).take cfg.chunk_size).take
            (r_idx s.pos s.config.chunk_size s.config.dataset_size - s.pos * s.config.chunk_size)
        ++ s.input.drop (r_idx s.pos s.config.chunk_size s.config.dataset_size)
        = xs.take (min ((k + 1) * cfg.chunk_size) cfg.dataset_size)
          ++ z.drop (min ((k + 1) * cfg.chunk_size) cfg.dataset_size) := by
      rw [hpos, hcfg, hinp, hchunkI,
        splice_take_drop xs z (k * cfg.chunk_size) (r_idx k cfg.chunk_size cfg.dataset_size)
          (by omega) hlr2 (by omega), hr2]
    have htg2 : s.target.take (s.pos * s.config.chunk_size)
        ++ ((ys.drop (k * cfg.chunk_size)).take cfg.chunk_size).take
            (r_idx s.pos s.config.chunk_size s.config.dataset_size - s.pos * s.config.chunk_size)
        ++ s.target.drop (r_idx s.pos s.config.chunk_size s.config.dataset_size)
        = ys.take (min ((k + 1) * cfg.chunk_size) cfg.dataset_size)
          ++ w.drop (min ((k + 1) * cfg.chunk_size) cfg.dataset_size) := by
      rw [hpos, hcfg, htg, hchunkT,
        splice_take_drop ys w (k * cfg.chunk_size) (r_idx k cfg.chunk_size cfg.dataset_size)
          (by omega) hlr2 (by omega), hr2]
    have H := ih (k + 1)
      { s with
        input := s.input.take (s.pos * s.config.chunk_size)
          ++ ((xs.drop (k * cfg.chunk_size)).take cfg.chunk_size).take
              (r_idx s.pos s.config.chunk_size s.config.dataset_size - s.pos * s.config.chunk_size)
          ++ s.input.drop (r_idx s.pos s.config.chunk_size s.config.dataset_size),
        target := s.target.take (s.pos * s.config.chunk_size)
          ++ ((ys.drop (k * cfg.chunk_size)).take cfg.chunk_size).take
              (r_idx s.pos s.config.chunk_size s.config.dataset_size - s.pos * s.config.chunk_size)
          ++ s.target.drop (r_idx s.pos s.config.chunk_size s.config.dataset_size),
        pos := s.pos + 1 }
      hcfg (by simp [hpos]) (by omega) hinp2 htg2
    rw [H]
    have harith : k + 1 + m = k + (m + 1) := by omega
    rw [harith]

lemma mm_runAppends_full (cfg : Config) (zi : α) (zt : β) (xs : List α) (ys : List β)
    (hC : 0 < cfg.chunk_size)
    (hxs : xs.length = cfg.dataset_size) (hys : ys.length = cfg.dataset_size) :
    runAppends (init cfg zi zt)
        (chunksFor cfg.chunk_size xs ys (numChunksFor cfg.dataset_size cfg.chunk_size)) =
      Except.ok
        { config := cfg, pos := numChunksFor cfg.dataset_size cfg.chunk_size,
          baseLocked := false, subLocked := none, input := xs, target := ys } := by
  have hz : (List.replicate cfg.dataset_size zi).length = cfg.dataset_size := by simp
  have hw : (List.replicate cfg.dataset_size zt).length = cfg.dataset_size := by simp
  have H := mm_runAppends_covering cfg (List.replicate cfg.dataset_size zi)
    (List.replicate cfg.dataset_size zt) xs ys hC hz hw hxs hys
    (numChunksFor cfg.dataset_size cfg.chunk_size) 0
    (init cfg zi zt) rfl rfl (by omega) (by simp [init]) (by simp [init])
  rw [chunksFor, List.range_eq_range']
  have hminN : min ((0 + numChunksFor cfg.dataset_size cfg.chunk_size) * cfg.chunk_size) cfg.dataset_size
      = cfg.dataset_size := by
    rw [Nat.zero_add]
    have := numChunks_mul_ge cfg.dataset_size cfg.chunk_size hC
    omega
  rw [hminN] at H
  have e1 : xs.take cfg.dataset_size ++ (List.replicate cfg.dataset_size zi).drop cfg.dataset_size = xs := by
    have d1 : (List.replicate cfg.dataset_size zi).drop cfg.dataset_size = [] := by simp
    rw [d1, List.append_nil, ← hxs, List.take_length]
  have e2 : ys.take cfg.dataset_size ++ (List.replicate cfg.dataset_size zt).drop cfg.dataset_size = ys := by
    have d2 : (List.replicate cfg.dataset_size zt).drop cfg.dataset_size = [] := by simp
    rw [d2, List.append_nil, ← hys, List.take_length]
  rw [e1, e2] at H
  simpa [init] using H

lemma mm_roundtrip_inner (cfg : Config) (zi : α) (zt : β) (xs : List α) (ys : List β)
    (hC : 0 < cfg.chunk_size)
    (hxs : xs.length = cfg.dataset_size) (hys : ys.length = cfg.dataset_size)
    (idx : Nat) (h1 : idx < xs.length) (h2 : idx < ys.length) :
    pipeline cfg zi zt xs ys idx = Except.ok (xs[idx], ys[idx]) := by
  rw [pipeline, mm_runAppends_full cfg zi zt xs ys hC hxs hys, Except_bind_ok]
  simp only [lock, getitem]
  rw [List.getElem?_eq_getElem h1, List.getElem?_eq_getElem h2]

end storage_memmap

lemma mm_roundtrip (cfg : Config) (zi : α) (zt : β) (xs : List α) (ys : List β)
    (hC : 0 < cfg.chunk_size)
    (hxs : xs.length = cfg.dataset_size) (hys : ys.length = cfg.dataset_size)
    (idx : Nat) (h1 : idx < xs.length) (h2 : idx < ys.length) :
    storage_memmap.pipeline cfg zi zt xs ys idx = Except.ok (xs[idx], ys[idx]) :=
  storage_memmap.mm_roundtrip_inner cfg zi zt xs ys hC hxs hys idx h1 h2

/-- Claim C1: for every backend variant and every configuration with
`C > 0`, writing `N` samples via successive appends covering all chunks
in order, locking, then reading each index `idx < N` returns exactly
the sample written at `idx`. The flat-file backend's save/open codec
round trip is abstracted as `reencI`/`reencT`, assumed lossless per the
claim's own parenthetical ("after any lossless re-encode/decode"). -/
theorem C1_roundtrip_every_backend {α β : Type} (cfg : Config) (zi : α) (zt : β)
    (xs : List α) (ys : List β) (reencI : α → α) (reencT : β → β)
    (hC : 0 < cfg.chunk_size)
    (hxs : xs.length = cfg.dataset_size) (hys : ys.length = cfg.dataset_size)
    (hI : ∀ a, reencI a = a) (hT : ∀ b, reencT b = b)
    (idx : Nat) (h1 : idx < xs.length) (h2 : idx < ys.length) :
    storage_hdf5.pipeline cfg zi zt xs ys idx = Except.ok (xs[idx], ys[idx])
    ∧ storage_memmap.pipeline cfg zi zt xs ys idx = Except.ok (xs[idx], ys[idx])
    ∧ storage_raw.pipeline reencI reencT cfg xs ys idx = Except.ok (xs[idx], ys[idx]) :=
  ⟨storage_hdf5.h5_roundtrip cfg zi zt xs ys hC hxs hys idx h1 h2,
   mm_roundtrip cfg zi zt xs ys hC hxs hys idx h1 h2,
   storage_raw.raw_roundtrip reencI reencT hI hT cfg xs ys hC hxs hys idx h1 h2⟩

/-- Claim C1, witness: the round trip evaluated at `N = 5`, `C = 2`
(final chunk clipped to one sample) on index 4 for all three
backends. -/
theorem C1_witness :
    storage_hdf5.pipeline
        { dataset_size := 5, targetH := 4, targetW := 4, chunk_size := 2, ann_file := "a" }
        (0 : Nat) (0 : Nat) [10, 20, 30, 40, 50] [1, 2, 3, 4, 5] 4 = Except.ok (50, 5)
    ∧ storage_memmap.pipeline
        { dataset_size := 5, targetH := 4, targetW := 4, chunk_size := 2, ann_file := "a" }
        (0 : Nat) (0 : Nat) [10, 20, 30, 40, 50] [1, 2, 3, 4, 5] 4 = Except.ok (50, 5)
    ∧ storage_raw.pipeline (id : Nat → Nat) (id : Nat → Nat)
        { dataset_size := 5, targetH := 4, targetW := 4, chunk_size := 2, ann_file := "a" }
        [10, 20, 30, 40, 50] [1, 2, 3, 4, 5] 4 = Except.ok (50, 5) :=
  C1_roundtrip_every_backend
    { dataset_size := 5, targetH := 4, targetW := 4, chunk_size := 2, ann_file := "a" }
    0 0 [10, 20, 30, 40, 50] [1, 2, 3, 4, 5] id id
    (by decide) (by decide) (by decide) (fun _ => rfl) (fun _ => rfl)
    4 (by decide) (by decide)

lemma mm_append_getElem (s : ArrSt α β) (ic : List α) (tc : List β)
    (hli : s.input.length = s.config.dataset_size)
    (hlt : s.target.length = s.config.dataset_size)
    (hpos : s.pos * s.config.chunk_size ≤ s.config.dataset_size)
    (hic : r_idx s.pos s.config.chunk_size s.config.dataset_size - l_idx s.pos s.config.chunk_size ≤ ic.length)
    (htc : r_idx s.pos s.config.chunk_size s.config.dataset_size - l_idx s.pos s.config.chunk_size ≤ tc.length) :
    ∃ s', storage_memmap.append s ic tc = Except.ok s' ∧ s'.pos = s.pos + 1
      ∧ (∀ i, s'.input[i]? =
          if l_idx s.pos s.config.chunk_size ≤ i ∧ i < r_idx s.pos s.config.chunk_size s.config.dataset_size
          then ic[i - l_idx s.pos s.config.chunk_size]? else s.input[i]?)
      ∧ (∀ i, s'.target[i]? =
          if l_idx s.pos s.config.chunk_size ≤ i ∧ i < r_idx s.pos s.config.chunk_size s.config.dataset_size
          then tc[i - l_idx s.pos s.config.chunk_size]? else s.target[i]?) := by
  have hic2 : min s.config.dataset_size (s.pos * s.config.chunk_size + s.config.chunk_size)
      - s.pos * s.config.chunk_size ≤ ic.length := hic
  have htc2 : min s.config.dataset_size (s.pos * s.config.chunk_size + s.config.chunk_size)
      - s.pos * s.config.chunk_size ≤ tc.length := htc
  refine ⟨_, storage_memmap.mm_append_eq s ic tc hli hlt hpos hic htc, rfl, ?_, ?_⟩
  · intro i
    simp only [l_idx, r_idx]
    show (s.input.take (s.pos * s.config.chunk_size)
        ++ ic.take (min s.config.dataset_size (s.pos * s.config.chunk_size + s.config.chunk_size)
            - s.pos * s.config.chunk_size)
        ++ s.input.drop (min s.config.dataset_size (s.pos * s.config.chunk_size + s.config.chunk_size)))[i]? = _
    rw [getElem?_splice s.input (s.pos * s.config.chunk_size)
      (min s.config.dataset_size (s.pos * s.config.chunk_size + s.config.chunk_size)) _
      (by omega) (by omega) (by omega)
      (by rw [List.length_take]; omega) i]
    by_cases hin : s.pos * s.config.chunk_size ≤ i
        ∧ i < min s.config.dataset_size (s.pos * s.config.chunk_size + s.config.chunk_size)
    · rw [if_pos hin, if_pos hin, List.getElem?_take_of_lt (by omega)]
    · rw [if_neg hin, if_neg hin]
  · intro i
    simp only [l_idx, r_idx]
    show (s.target.take (s.pos * s.config.chunk_size)
        ++ tc.take (min s.config.dataset_size (s.pos * s.config.chunk_size + s.config.chunk_size)
            - s.pos * s.config.chunk_size)
        ++ s.target.drop (min s.config.dataset_size (s.pos * s.config.chunk_size + s.config.chunk_size)))[i]? = _
    rw [getElem?_splice s.target (s.pos * s.config.chunk_size)
      (min s.config.dataset_size (s.pos * s.config.chunk_size + s.config.chunk_size)) _
      (by omega) (by omega) (by omega)
      (by rw [List.length_take]; omega) i]
    by_cases hin : s.pos * s.config.chunk_size ≤ i
        ∧ i < min s.config.dataset_size (s.pos * s.config.chunk_size + s.config.chunk_size)
    · rw [if_pos hin, if_pos hin, List.getElem?_take_of_lt (by omega)]
    · rw [if_neg hin, if_neg hin]

lemma raw_append_getElem (reencI : α → α) (reencT : β → β) (s : RawSt α β)
    (ic : List α) (tc : List β)
    (hic : r_idx s.pos s.config.chunk_size s.config.dataset_size - l_idx s.pos s.config.chunk_size ≤ ic.length)
    (htc : r_idx s.pos s.config.chunk_size s.config.dataset_size - l_idx s.pos s.config.chunk_size ≤ tc.length) :
    ∃ s', storage_raw.append reencI reencT s ic tc = Except.ok s' ∧ s'.pos = s.pos + 1
      ∧ (∀ i, s'.inputFiles i =
          if l_idx s.pos s.config.chunk_size ≤ i ∧ i < r_idx s.pos s.config.chunk_size s.config.dataset_size
          then (ic[i - l_idx s.pos s.config.chunk_size]?).map reencI else s.inputFiles i)
      ∧ (∀ i, s'.targetFiles i =
          if l_idx s.pos s.config.chunk_size ≤ i ∧ i < r_idx s.pos s.config.chunk_size s.config.dataset_size
          then (tc[i - l_idx s.pos s.config.chunk_size]?).map reencT else s.targetFiles i) := by
  have hic2 : min s.config.dataset_size (s.pos * s.config.chunk_size + s.config.chunk_size)
      - s.pos * s.config.chunk_size ≤ ic.length := hic
  have htc2 : min s.config.dataset_size (s.pos * s.config.chunk_size + s.config.chunk_size)
      - s.pos * s.config.chunk_size ≤ tc.length := htc
  have happ : storage_raw.append reencI reencT s ic tc = Except.ok
      { s with
        inputFiles := fun i =>
          if s.pos * s.config.chunk_size ≤ i
              ∧ i < min s.config.dataset_size (s.pos * s.config.chunk_size + s.config.chunk_size)
          then (ic[i - s.pos * s.config.chunk_size]?).map reencI else s.inputFiles i,
        targetFiles := fun i =>
          if s.pos * s.config.chunk_size ≤ i
              ∧ i < min s.config.dataset_size (s.pos * s.config.chunk_size + s.config.chunk_size)
          then (tc[i - s.pos * s.config.chunk_size]?).map reencT else s.targetFiles i,
        pos := s.pos + 1 } := by
    simp only [storage_raw.append]
    rw [if_pos ⟨hic2, htc2⟩]
  exact ⟨_, happ, rfl, fun i => rfl, fun i => rfl⟩

/-- Claim C2: the k-th append call (with `pos = k` before the call)
writes exactly the first `right - left` rows of the supplied chunk into
sample indices `[left, right)` with `left = k * C` and
`right = min(N, left + C)`, leaving every other index unchanged, and
this sample-to-index mapping is literally the same if-expression for
all three backends; moreover for `N` not a multiple of `C` the final
covering append (`k = N / C`) writes exactly `N mod C` samples, and for
`N` a multiple of `C` the final covering append (`k = N / C - 1`)
writes exactly `C` samples. -/
theorem C2_chunk_range_shared {α β : Type} (cfg : Config) (k : Nat)
    (ic : List α) (tc : List β) (reencI : α → α) (reencT : β → β)
    (sa sm : ArrSt α β) (sr : RawSt α β)
    (hC : 0 < cfg.chunk_size)
    (hcfga : sa.config = cfg) (hposa : sa.pos = k)
    (hlia : sa.input.length = cfg.dataset_size) (hlta : sa.target.length = cfg.dataset_size)
    (hcfgm : sm.config = cfg) (hposm : sm.pos = k)
    (hlim : sm.input.length = cfg.dataset_size) (hltm : sm.target.length = cfg.dataset_size)
    (hcfgr : sr.config = cfg) (hposr : sr.pos = k)
    (hk : k * cfg.chunk_size ≤ cfg.dataset_size)
    (hic : r_idx k cfg.chunk_size cfg.dataset_size - l_idx k cfg.chunk_size ≤ ic.length)
    (htc : r_idx k cfg.chunk_size cfg.dataset_size - l_idx k cfg.chunk_size ≤ tc.length) :
    (∃ sa', storage_hdf5.append sa ic tc = Except.ok sa' ∧ sa'.pos = k + 1
      ∧ (∀ i, sa'.input[i]? =
          if l_idx k cfg.chunk_size ≤ i ∧ i < r_idx k cfg.chunk_size cfg.dataset_size
          then ic[i - l_idx k cfg.chunk_size]? else sa.input[i]?)
      ∧ (∀ i, sa'.target[i]? =
          if l_idx k cfg.chunk_size ≤ i ∧ i < r_idx k cfg.chunk_size cfg.dataset_size
          then tc[i - l_idx k cfg.chunk_size]? else sa.target[i]?))
    ∧ (∃ sm', storage_memmap.append sm ic tc = Except.ok sm' ∧ sm'.pos = k + 1
      ∧ (∀ i, sm'.input[i]? =
          if l_idx k cfg.chunk_size ≤ i ∧ i < r_idx k cfg.chunk_size cfg.dataset_size
          then ic[i - l_idx k cfg.chunk_size]? else sm.input[i]?)
      ∧ (∀ i, sm'.target[i]? =
          if l_idx k cfg.chunk_size ≤ i ∧ i < r_idx k cfg.chunk_size cfg.dataset_size
          then tc[i - l_idx k cfg.chunk_size]? else sm.target[i]?))
    ∧ (∃ sr', storage_raw.append reencI reencT sr ic tc = Except.ok sr' ∧ sr'.pos = k + 1
      ∧ (∀ i, sr'.inputFiles i =
          if l_idx k cfg.chunk_size ≤ i ∧ i < r_idx k cfg.chunk_size cfg.dataset_size
          then (ic[i - l_idx k cfg.chunk_size]?).map reencI else sr.inputFiles i)
      ∧ (∀ i, sr'.targetFiles i =
          if l_idx k cfg.chunk_size ≤ i ∧ i < r_idx k cfg.chunk_size cfg.dataset_size
          then (tc[i - l_idx k cfg.chunk_size]?).map reencT else sr.targetFiles i))
    ∧ (cfg.dataset_size % cfg.chunk_size ≠ 0 →
        r_idx (cfg.dataset_size / cfg.chunk_size) cfg.chunk_size cfg.dataset_size
          - l_idx (cfg.dataset_size / cfg.chunk_size) cfg.chunk_size
          = cfg.dataset_size % cfg.chunk_size)
    ∧ (cfg.dataset_size % cfg.chunk_size = 0 → 0 < cfg.dataset_size →
        r_idx (cfg.dataset_size / cfg.chunk_size - 1) cfg.chunk_size cfg.dataset_size
          - l_idx (cfg.dataset_size / cfg.chunk_size - 1) cfg.chunk_size
          = cfg.chunk_size) := by
  refine ⟨?_, ?_, ?_, ?_, ?_⟩
  · obtain ⟨s', e1, e2, e3, e4⟩ := storage_hdf5.h5_append_getElem sa ic tc
      (by rw [hcfga]; exact hlia) (by rw [hcfga]; exact hlta)
      (by rw [hcfga, hposa]; exact hk)
      (by rw [hcfga, hposa]; exact hic) (by rw [hcfga, hposa]; exact htc)
    rw [hposa] at e2
    rw [hcfga, hposa] at e3 e4
    exact ⟨s', e1, e2, e3, e4⟩
  · obtain ⟨s', e1, e2, e3, e4⟩ := mm_append_getElem sm ic tc
      (by rw [hcfgm]; exact hlim) (by rw [hcfgm]; exact hltm)
      (by rw [hcfgm, hposm]; exact hk)
      (by rw [hcfgm, hposm]; exact hic) (by rw [hcfgm, hposm]; exact htc)
    rw [hposm] at e2
    rw [hcfgm, hposm] at e3 e4
    exact ⟨s', e1, e2, e3, e4⟩
  · obtain ⟨s', e1, e2, e3, e4⟩ := raw_append_getElem reencI reencT sr ic tc
      (by rw [hcfgr, hposr]; exact hic) (by rw [hcfgr, hposr]; exact htc)
    rw [hposr] at e2
    rw [hcfgr, hposr] at e3 e4
    exact ⟨s', e1, e2, e3, e4⟩
  · intro hmod
    unfold r_idx l_idx
    have h := Nat.div_add_mod cfg.dataset_size cfg.chunk_size
    have hcm : (cfg.dataset_size / cfg.chunk_size) * cfg.chunk_size
        = cfg.chunk_size * (cfg.dataset_size / cfg.chunk_size) := Nat.mul_comm _ _
    have hm : cfg.dataset_size % cfg.chunk_size < cfg.chunk_size := Nat.mod_lt _ hC
    omega
  · intro hmod hN
    unfold r_idx l_idx
    have h := Nat.div_add_mod cfg.dataset_size cfg.chunk_size
    have hcm : (cfg.dataset_size / cfg.chunk_size) * cfg.chunk_size
        = cfg.chunk_size * (cfg.dataset_size / cfg.chunk_size) := Nat.mul_comm _ _
    have hsub : (cfg.dataset_size / cfg.chunk_size - 1) * cfg.chunk_size
        = (cfg.dataset_size / cfg.chunk_size) * cfg.chunk_size - 1 * cfg.chunk_size :=
      Nat.sub_mul _ _ _
    have hCN : cfg.chunk_size ≤ cfg.dataset_size := by
      by_contra hlt
      push_neg at hlt
      have : cfg.dataset_size % cfg.chunk_size = cfg.dataset_size := Nat.mod_eq_of_lt hlt
      omega
    omega

end DLStorage

namespace DLStorage

/-- Claim C3: for every backend, after any successful operation
sequence from a fresh backend that contains no `lock`, `get` fails with
the `NotLocked` condition (an `AttributeError`), and after any
successful sequence that contains a `lock`, `get` never fails with
`NotLocked`. -/
theorem C3_lock_gating {α β : Type} (cfg : Config) (zi : α) (zt : β)
    (ia : Option (List α)) (ta : Option (List β)) (fs : FS)
    (reencI : α → α) (reencT : β → β) (ops : List (Op α β))
    (sa sm : ArrSt α β) (s0 sr : RawSt α β) (idx : Nat) :
    (storage_hdf5.run (storage_hdf5.init cfg zi zt ia ta) ops = Except.ok sa →
      Op.lock ∉ ops → isNotLockedFailure (storage_hdf5.getitem sa idx) = true)
    ∧ (storage_hdf5.run (storage_hdf5.init cfg zi zt ia ta) ops = Except.ok sa →
      Op.lock ∈ ops → isNotLockedFailure (storage_hdf5.getitem sa idx) = false)
    ∧ (storage_memmap.run (storage_memmap.init cfg zi zt) ops = Except.ok sm →
      Op.lock ∉ ops → isNotLockedFailure (storage_memmap.getitem sm idx) = true)
    ∧ (storage_memmap.run (storage_memmap.init cfg zi zt) ops = Except.ok sm →
      Op.lock ∈ ops → isNotLockedFailure (storage_memmap.getitem sm idx) = false)
    ∧ (storage_raw.init cfg fs = Except.ok s0 →
      storage_raw.run reencI reencT s0 ops = Except.ok sr →
      Op.lock ∉ ops → isNotLockedFailure (storage_raw.getitem sr idx) = true)
    ∧ (storage_raw.init cfg fs = Except.ok s0 →
      storage_raw.run reencI reencT s0 ops = Except.ok sr →
      Op.lock ∈ ops → isNotLockedFailure (storage_raw.getitem sr idx) = false) := by
  refine ⟨?_, ?_, ?_, ?_, ?_, ?_⟩
  · intro hrun hmem
    have hnone : sa.subLocked = none := by
      rw [storage_hdf5.h5_run_no_lock ops _ sa hrun hmem]
      rfl
    rw [storage_hdf5.h5_getitem_none sa idx hnone]
    rfl
  · intro hrun hmem
    exact storage_hdf5.h5_getitem_locked_not_nlf sa idx
      (storage_hdf5.h5_run_lock_mem ops _ sa hrun hmem)
  · intro hrun hmem
    have hnone : sm.subLocked = none := by
      rw [storage_memmap.mm_run_no_lock ops _ sm hrun hmem]
      rfl
    rw [storage_memmap.mm_getitem_none sm idx hnone]
    rfl
  · intro hrun hmem
    exact storage_memmap.mm_getitem_locked_not_nlf sm idx
      (storage_memmap.mm_run_lock_mem ops _ sm hrun hmem)
  · intro hinit hrun hmem
    have h0 := storage_raw.raw_init_ok cfg fs s0 hinit
    have hnone : sr.subLocked = none := by
      rw [storage_raw.raw_run_no_lock reencI reencT ops s0 sr hrun hmem, h0]
    rw [storage_raw.raw_getitem_none sr idx hnone]
    rfl
  · intro hinit hrun hmem
    exact storage_raw.raw_getitem_locked_not_nlf sr idx
      (storage_raw.raw_run_lock_mem reencI reencT ops s0 sr hrun hmem)

/-- Claim C8: every backend starts with `pos = 0` and unlocked; every
successful append increments `pos` by exactly 1; after any successful
covering write sequence of at most `ceil(N / C)` appends from a fresh
backend, `pos` never exceeds `ceil(N / C)`; `lock` sets the lock flag,
and no successful sequence of contract operations applied to a locked
backend returns it to the unlocked state. -/
theorem C8_state_machine {α β : Type} (cfg : Config) (zi : α) (zt : β)
    (ia : Option (List α)) (ta : Option (List β)) (fs : FS)
    (reencI : α → α) (reencT : β → β) (ic : List α) (tc : List β)
    (chunks : List (List α × List β)) (ops : List (Op α β))
    (sa sa' sa2 sa3 sa4 sm sm' sm2 sm3 sm4 : ArrSt α β)
    (s0 sr sr' sr2 sr3 sr4 : RawSt α β) :
    ((storage_hdf5.init cfg zi zt ia ta).pos = 0
      ∧ (storage_hdf5.init cfg zi zt ia ta).subLocked = none
      ∧ (storage_memmap.init cfg zi zt).pos = 0
      ∧ (storage_memmap.init cfg zi zt).subLocked = none
      ∧ (storage_raw.init cfg fs = Except.ok s0 → s0.pos = 0 ∧ s0.subLocked = none))
    ∧ (storage_hdf5.append sa ic tc = Except.ok sa' → sa'.pos = sa.pos + 1)
    ∧ (storage_memmap.append sm ic tc = Except.ok sm' → sm'.pos = sm.pos + 1)
    ∧ (storage_raw.append reencI reencT sr ic tc = Except.ok sr' → sr'.pos = sr.pos + 1)
    ∧ (storage_hdf5.runAppends (storage_hdf5.init cfg zi zt ia ta) chunks = Except.ok sa2 →
        chunks.length ≤ numChunksFor cfg.dataset_size cfg.chunk_size →
        sa2.pos ≤ numChunksFor cfg.dataset_size cfg.chunk_size)
    ∧ (storage_memmap.runAppends (storage_memmap.init cfg zi zt) chunks = Except.ok sm2 →
        chunks.length ≤ numChunksFor cfg.dataset_size cfg.chunk_size →
        sm2.pos ≤ numChunksFor cfg.dataset_size cfg.chunk_size)
    ∧ (storage_raw.init cfg fs = Except.ok s0 →
        storage_raw.runAppends reencI reencT s0 chunks = Except.ok sr2 →
        chunks.length ≤ numChunksFor cfg.dataset_size cfg.chunk_size →
        sr2.pos ≤ numChunksFor cfg.dataset_size cfg.chunk_size)
    ∧ ((storage_hdf5.lock sa3).subLocked = some true
      ∧ (storage_memmap.lock sm3).subLocked = some true
      ∧ (storage_raw.lock sr3).subLocked = some true)
    ∧ (sa3.subLocked = some true → storage_hdf5.run sa3 ops = Except.ok sa4 →
        sa4.subLocked = some true)
    ∧ (sm3.subLocked = some true → storage_memmap.run sm3 ops = Except.ok sm4 →
        sm4.subLocked = some true)
    ∧ (sr3.subLocked = some true → storage_raw.run reencI reencT sr3 ops = Except.ok sr4 →
        sr4.subLocked = some true) := by
  refine ⟨⟨rfl, rfl, rfl, rfl, ?_⟩, ?_, ?_, ?_, ?_, ?_, ?_, ⟨rfl, rfl, rfl⟩, ?_, ?_, ?_⟩
  · intro hinit
    rw [storage_raw.raw_init_ok cfg fs s0 hinit]
    exact ⟨rfl, rfl⟩
  · intro h
    exact (storage_hdf5.h5_append_frame sa ic tc sa' h).1
  · intro h
    exact (storage_memmap.mm_append_frame sm ic tc sm' h).1
  · intro h
    exact (storage_raw.raw_append_frame reencI reencT sr ic tc sr' h).1
  · intro hrun hlen
    have := storage_hdf5.h5_runAppends_pos chunks _ sa2 hrun
    rw [this]
    simp only [storage_hdf5.init]
    omega
  · intro hrun hlen
    have := storage_memmap.mm_runAppends_pos chunks _ sm2 hrun
    rw [this]
    simp only [storage_memmap.init]
    omega
  · intro hinit hrun hlen
    have hp := storage_raw.raw_runAppends_pos reencI reencT chunks s0 sr2 hrun
    have h0 : s0.pos = 0 := by rw [storage_raw.raw_init_ok cfg fs s0 hinit]
    omega
  · intro hl hrun
    exact storage_hdf5.h5_run_locked_mono ops sa3 sa4 hrun hl
  · intro hl hrun
    exact storage_memmap.mm_run_locked_mono ops sm3 sm4 hrun hl
  · intro hl hrun
    exact storage_raw.raw_run_locked_mono reencI reencT ops sr3 sr4 hrun hl

/-- Claim C10: in every backend the flag written by the subclass's
`lock` and read by its `__getitem__` is the subclass-private
name-mangled attribute, distinct from the `_storage_class__locked`
flag the base constructor initializes to `False`: before `lock` the
attribute read by `__getitem__` does not exist, so the pre-lock failure
of `get` is the missing-attribute `AttributeError`; the explicit
`raise AttributeError("... not locked. Access denied.")` requires the
flag to exist and be `False`, which no reachable state produces — it is
unreachable; and `__getitem__` never reads the base-class flag. -/
theorem C10_mangled_lock_flag {α β : Type} (cfg : Config) (zi : α) (zt : β)
    (ia : Option (List α)) (ta : Option (List β)) (fs : FS)
    (reencI : α → α) (reencT : β → β) (ops : List (Op α β))
    (sa sm : ArrSt α β) (s0 sr : RawSt α β) (idx : Nat) (b : Bool) :
    ((storage_hdf5.init cfg zi zt ia ta).baseLocked = false
      ∧ (storage_hdf5.init cfg zi zt ia ta).subLocked = none
      ∧ (storage_memmap.init cfg zi zt).baseLocked = false
      ∧ (storage_memmap.init cfg zi zt).subLocked = none
      ∧ (storage_raw.init cfg fs = Except.ok s0 → s0.baseLocked = false ∧ s0.subLocked = none))
    ∧ (storage_hdf5.run (storage_hdf5.init cfg zi zt ia ta) ops = Except.ok sa →
        Op.lock ∉ ops →
        storage_hdf5.getitem sa idx
          = Except.error (Err.attributeErrorMissing "_storage_hdf5__locked"))
    ∧ (storage_memmap.run (storage_memmap.init cfg zi zt) ops = Except.ok sm →
        Op.lock ∉ ops →
        storage_memmap.getitem sm idx
          = Except.error (Err.attributeErrorMissing "_storage_memmap__locked"))
    ∧ (storage_raw.init cfg fs = Except.ok s0 →
        storage_raw.run reencI reencT s0 ops = Except.ok sr →
        Op.lock ∉ ops →
        storage_raw.getitem sr idx
          = Except.error (Err.attributeErrorMissing "_storage_raw__locked"))
    ∧ (storage_hdf5.run (storage_hdf5.init cfg zi zt ia ta) ops = Except.ok sa →
        ∀ msg, storage_hdf5.getitem sa idx ≠ Except.error (Err.attributeErrorRaised msg))
    ∧ (storage_memmap.run (storage_memmap.init cfg zi zt) ops = Except.ok sm →
        ∀ msg, storage_memmap.getitem sm idx ≠ Except.error (Err.attributeErrorRaised msg))
    ∧ (storage_raw.init cfg fs = Except.ok s0 →
        storage_raw.run reencI reencT s0 ops = Except.ok sr →
        ∀ msg, storage_raw.getitem sr idx ≠ Except.error (Err.attributeErrorRaised msg))
    ∧ (storage_hdf5.getitem { sa with baseLocked := b } idx = storage_hdf5.getitem sa idx)
    ∧ (storage_memmap.getitem { sm with baseLocked := b } idx = storage_memmap.getitem sm idx)
    ∧ (storage_raw.getitem { sr with baseLocked := b } idx = storage_raw.getitem sr idx) := by
  refine ⟨⟨rfl, rfl, rfl, rfl, ?_⟩, ?_, ?_, ?_, ?_, ?_, ?_, rfl, rfl, rfl⟩
  · intro hinit
    rw [storage_raw.raw_init_ok cfg fs s0 hinit]
    exact ⟨rfl, rfl⟩
  · intro hrun hmem
    exact storage_hdf5.h5_getitem_none sa idx
      (by rw [storage_hdf5.h5_run_no_lock ops _ sa hrun hmem]; rfl)
  · intro hrun hmem
    exact storage_memmap.mm_getitem_none sm idx
      (by rw [storage_memmap.mm_run_no_lock ops _ sm hrun hmem]; rfl)
  · intro hinit hrun hmem
    exact storage_raw.raw_getitem_none sr idx
      (by rw [storage_raw.raw_run_no_lock reencI reencT ops s0 sr hrun hmem,
        storage_raw.raw_init_ok cfg fs s0 hinit])
  · intro hrun msg hcontra
    have h1 := storage_hdf5.h5_getitem_raised_imp sa idx msg hcontra
    have h2 := storage_hdf5.h5_run_not_false ops _ sa hrun (by intro h; cases h)
    exact h2 h1
  · intro hrun msg hcontra
    have h1 := storage_memmap.mm_getitem_raised_imp sm idx msg hcontra
    have h2 := storage_memmap.mm_run_not_false ops _ sm hrun (by intro h; cases h)
    exact h2 h1
  · intro hinit hrun msg hcontra
    have h1 := storage_raw.raw_getitem_raised_imp sr idx msg hcontra
    have h2 := storage_raw.raw_run_not_false reencI reencT ops s0 sr hrun
      (by rw [storage_raw.raw_init_ok cfg fs s0 hinit]; intro h; cases h)
    exact h2 h1

end DLStorage

namespace DLStorage

/-- Claim C9, counterexample: with `N = 5`, `C = 3` the dataset is
fully covered after two appends (`pos * C = 6 ≥ 5`); a third append
supplying a full 3-row chunk does NOT leave the arrays unchanged while
incrementing `pos` — the trimmed prefix `chunk[:5-6] = chunk[:-1]` has
two rows, numpy cannot broadcast them into the empty slice
`arr[6:5]`, and the append raises `ValueError` instead, leaving `pos`
at 2. -/
theorem C9_counterexample :
    (5 : Nat) ≤ 2 * 3
    ∧ storage_memmap.runAppends
        (storage_memmap.init
          { dataset_size := 5, targetH := 4, targetW := 4, chunk_size := 3, ann_file := "a" }
          (0 : Nat) (0 : Nat))
        [([1, 2, 3], [1, 2, 3]), ([4, 5, 6], [4, 5, 6])]
      = Except.ok
        { config := { dataset_size := 5, targetH := 4, targetW := 4, chunk_size := 3, ann_file := "a" },
          pos := 2, baseLocked := false, subLocked := none,
          input := [1, 2, 3, 4, 5], target := [1, 2, 3, 4, 5] }
    ∧ storage_memmap.runAppends
        (storage_memmap.init
          { dataset_size := 5, targetH := 4, targetW := 4, chunk_size := 3, ann_file := "a" }
          (0 : Nat) (0 : Nat))
        [([1, 2, 3], [1, 2, 3]), ([4, 5, 6], [4, 5, 6]), ([7, 8, 9], [7, 8, 9])]
      = Except.error Err.valueErrorBroadcast := by
  refine ⟨by decide, ?_, ?_⟩
  · rfl
  · rfl

/-- Claim C9, amended: once the dataset is fully covered
(`pos * C ≥ N`, so the index range `[left, right)` is empty), the
flat-file backend's append writes no files and increments `pos` by
exactly 1 for any chunk, and the container backend's h5py write skips
the empty selection without validating the source, so its append also
leaves the stored arrays unchanged and increments `pos` by exactly 1
for any chunk; the mapped-array (numpy) backend is a no-op that
increments `pos` only when the trimmed chunk prefix `chunk[:r-l]`
(Python slicing with the negative bound) has at most one row — empty,
or a single row, which numpy broadcasts into the empty selection; a
trimmed prefix of two or more rows makes the numpy assignment fail with
a broadcast `ValueError`, and `pos` is not incremented. -/
theorem C9_post_coverage_amended {α β : Type} (reencI : α → α) (reencT : β → β)
    (sa sm sm2 sm3 : ArrSt α β) (sr : RawSt α β)
    (ic : List α) (tc : List β) (a : α) (b : β) :
    (sr.config.dataset_size ≤ sr.pos * sr.config.chunk_size →
      ∃ sr', storage_raw.append reencI reencT sr ic tc = Except.ok sr' ∧ sr'.pos = sr.pos + 1
        ∧ (∀ i, sr'.inputFiles i = sr.inputFiles i)
        ∧ (∀ i, sr'.targetFiles i = sr.targetFiles i))
    ∧ (sa.input.length ≤ sa.pos * sa.config.chunk_size →
       sa.target.length ≤ sa.pos * sa.config.chunk_size →
       storage_hdf5.append sa ic tc = Except.ok { sa with pos := sa.pos + 1 })
    ∧ (sm.input.length ≤ sm.pos * sm.config.chunk_size →
       sm.target.length ≤ sm.pos * sm.config.chunk_size →
       pyTake ic (((min sm.config.dataset_size (sm.pos * sm.config.chunk_size + sm.config.chunk_size) : Nat) : Int)
          - ((sm.pos * sm.config.chunk_size : Nat) : Int)) = [] →
       pyTake tc (((min sm.config.dataset_size (sm.pos * sm.config.chunk_size + sm.config.chunk_size) : Nat) : Int)
          - ((sm.pos * sm.config.chunk_size : Nat) : Int)) = [] →
       storage_memmap.append sm ic tc = Except.ok { sm with pos := sm.pos + 1 })
    ∧ (sm2.input.length ≤ sm2.pos * sm2.config.chunk_size →
       sm2.target.length ≤ sm2.pos * sm2.config.chunk_size →
       pyTake ic (((min sm2.config.dataset_size (sm2.pos * sm2.config.chunk_size + sm2.config.chunk_size) : Nat) : Int)
          - ((sm2.pos * sm2.config.chunk_size : Nat) : Int)) = [a] →
       pyTake tc (((min sm2.config.dataset_size (sm2.pos * sm2.config.chunk_size + sm2.config.chunk_size) : Nat) : Int)
          - ((sm2.pos * sm2.config.chunk_size : Nat) : Int)) = [b] →
       storage_memmap.append sm2 ic tc = Except.ok { sm2 with pos := sm2.pos + 1 })
    ∧ (sm3.input.length ≤ sm3.pos * sm3.config.chunk_size →
       2 ≤ (pyTake ic (((min sm3.config.dataset_size (sm3.pos * sm3.config.chunk_size + sm3.config.chunk_size) : Nat) : Int)
          - ((sm3.pos * sm3.config.chunk_size : Nat) : Int))).length →
       storage_memmap.append sm3 ic tc = Except.error Err.valueErrorBroadcast) := by
  refine ⟨?_, ?_, ?_, ?_, ?_⟩
  · intro hcov
    exact storage_raw.raw_append_post_coverage reencI reencT sr ic tc hcov
  · intro h1 h2
    exact storage_hdf5.h5_append_post_coverage sa ic tc h1 h2
  · intro h1 h2 h3 h4
    exact storage_memmap.mm_append_post_coverage_empty sm ic tc h1 h2 h3 h4
  · intro h1 h2 h3 h4
    exact storage_memmap.mm_append_post_coverage_single sm2 ic tc a b h1 h2 h3 h4
  · intro h1 h2
    exact storage_memmap.mm_append_post_coverage_err sm3 ic tc h1 h2

end DLStorage

namespace DLStorage

/-- Claim C2, witness: the chunk-range arithmetic evaluated at
`N = 5, C = 2` (final append writes 1 sample) and `N = 4, C = 2`
(final append writes 2 samples), via the claim theorem applied at
concrete backend states. -/
theorem C2_witness :
    r_idx 2 2 5 - l_idx 2 2 = 1 ∧ r_idx 1 2 4 - l_idx 1 2 = 2 := by
  constructor
  · exact (C2_chunk_range_shared
      { dataset_size := 5, targetH := 4, targetW := 4, chunk_size := 2, ann_file := "a" }
      1 [7, 8] [7, 8] (id : Nat → Nat) (id : Nat → Nat)
      { config := { dataset_size := 5, targetH := 4, targetW := 4, chunk_size := 2, ann_file := "a" },
        pos := 1, baseLocked := false, subLocked := none,
        input := [0, 0, 0, 0, 0], target := [0, 0, 0, 0, 0] }
      { config := { dataset_size := 5, targetH := 4, targetW := 4, chunk_size := 2, ann_file := "a" },
        pos := 1, baseLocked := false, subLocked := none,
        input := [0, 0, 0, 0, 0], target := [0, 0, 0, 0, 0] }
      { config := { dataset_size := 5, targetH := 4, targetW := 4, chunk_size := 2, ann_file := "a" },
        pos := 1, baseLocked := false, subLocked := none,
        inputFiles := fun _ => none, targetFiles := fun _ => none }
      (by decide) rfl rfl rfl rfl rfl rfl rfl rfl rfl rfl
      (by decide) (by decide) (by decide)).2.2.2.1 (by decide)
  · exact (C2_chunk_range_shared
      { dataset_size := 4, targetH := 4, targetW := 4, chunk_size := 2, ann_file := "a" }
      1 [7, 8] [7, 8] (id : Nat → Nat) (id : Nat → Nat)
      { config := { dataset_size := 4, targetH := 4, targetW := 4, chunk_size := 2, ann_file := "a" },
        pos := 1, baseLocked := false, subLocked := none,
        input := [0, 0, 0, 0], target := [0, 0, 0, 0] }
      { config := { dataset_size := 4, targetH := 4, targetW := 4, chunk_size := 2, ann_file := "a" },
        pos := 1, baseLocked := false, subLocked := none,
        input := [0, 0, 0, 0], target := [0, 0, 0, 0] }
      { config := { dataset_size := 4, targetH := 4, targetW := 4, chunk_size := 2, ann_file := "a" },
        pos := 1, baseLocked := false, subLocked := none,
        inputFiles := fun _ => none, targetFiles := fun _ => none }
      (by decide) rfl rfl rfl rfl rfl rfl rfl rfl rfl rfl
      (by decide) (by decide) (by decide)).2.2.2.2 (by decide) (by decide)

/-- Claim C3, witness: lock gating evaluated on concrete fresh and
locked states of all three backends. -/
theorem C3_witness :
    isNotLockedFailure (storage_hdf5.getitem
      (storage_hdf5.init
        { dataset_size := 2, targetH := 1, targetW := 1, chunk_size := 1, ann_file := "a" }
        (0 : Nat) (0 : Nat) none none) 0) = true
    ∧ isNotLockedFailure (storage_hdf5.getitem
      (storage_hdf5.lock (storage_hdf5.init
        { dataset_size := 2, targetH := 1, targetW := 1, chunk_size := 1, ann_file := "a" }
        (0 : Nat) (0 : Nat) none none)) 0) = false
    ∧ isNotLockedFailure (storage_memmap.getitem
      (storage_memmap.init
        { dataset_size := 2, targetH := 1, targetW := 1, chunk_size := 1, ann_file := "a" }
        (0 : Nat) (0 : Nat)) 0) = true
    ∧ isNotLockedFailure (storage_memmap.getitem
      (storage_memmap.lock (storage_memmap.init
        { dataset_size := 2, targetH := 1, targetW := 1, chunk_size := 1, ann_file := "a" }
        (0 : Nat) (0 : Nat))) 0) = false
    ∧ isNotLockedFailure (storage_raw.getitem
      ({ config := { dataset_size := 2, targetH := 1, targetW := 1, chunk_size := 1, ann_file := "a" },
         pos := 0, baseLocked := false, subLocked := none,
         inputFiles := fun _ => none, targetFiles := fun _ => none } : RawSt Nat Nat) 0) = true
    ∧ isNotLockedFailure (storage_raw.getitem
      (storage_raw.lock
        { config := { dataset_size := 2, targetH := 1, targetW := 1, chunk_size := 1, ann_file := "a" },
          pos := 0, baseLocked := false, subLocked := none,
          inputFiles := fun _ => none, targetFiles := fun _ => none } : RawSt Nat Nat) 0) = false := by
  refine ⟨?_, ?_, ?_, ?_, ?_, ?_⟩
  · exact (C3_lock_gating
      { dataset_size := 2, targetH := 1, targetW := 1, chunk_size := 1, ann_file := "a" }
      (0 : Nat) (0 : Nat) none none { inputDirPresent := false, targetDirPresent := false }
      id id []
      (storage_hdf5.init { dataset_size := 2, targetH := 1, targetW := 1, chunk_size := 1, ann_file := "a" } 0 0 none none)
      (storage_memmap.init { dataset_size := 2, targetH := 1, targetW := 1, chunk_size := 1, ann_file := "a" } 0 0)
      { config := { dataset_size := 2, targetH := 1, targetW := 1, chunk_size := 1, ann_file := "a" },
        pos := 0, baseLocked := false, subLocked := none,
        inputFiles := fun _ => none, targetFiles := fun _ => none }
      { config := { dataset_size := 2, targetH := 1, targetW := 1, chunk_size := 1, ann_file := "a" },
        pos := 0, baseLocked := false, subLocked := none,
        inputFiles := fun _ => none, targetFiles := fun _ => none }
      0).1 rfl (by simp)
  · exact (C3_lock_gating
      { dataset_size := 2, targetH := 1, targetW := 1, chunk_size := 1, ann_file := "a" }
      (0 : Nat) (0 : Nat) none none { inputDirPresent := false, targetDirPresent := false }
      id id [Op.lock]
      (storage_hdf5.lock (storage_hdf5.init { dataset_size := 2, targetH := 1, targetW := 1, chunk_size := 1, ann_file := "a" } 0 0 none none))
      (storage_memmap.init { dataset_size := 2, targetH := 1, targetW := 1, chunk_size := 1, ann_file := "a" } 0 0)
      { config := { dataset_size := 2, targetH := 1, targetW := 1, chunk_size := 1, ann_file := "a" },
        pos := 0, baseLocked := false, subLocked := none,
        inputFiles := fun _ => none, targetFiles := fun _ => none }
      { config := { dataset_size := 2, targetH := 1, targetW := 1, chunk_size := 1, ann_file := "a" },
        pos := 0, baseLocked := false, subLocked := none,
        inputFiles := fun _ => none, targetFiles := fun _ => none }
      0).2.1 rfl (by simp)
  · exact (C3_lock_gating
      { dataset_size := 2, targetH := 1, targetW := 1, chunk_size := 1, ann_file := "a" }
      (0 : Nat) (0 : Nat) none none { inputDirPresent := false, targetDirPresent := false }
      id id []
      (storage_hdf5.init { dataset_size := 2, targetH := 1, targetW := 1, chunk_size := 1, ann_file := "a" } 0 0 none none)
      (storage_memmap.init { dataset_size := 2, targetH := 1, targetW := 1, chunk_size := 1, ann_file := "a" } 0 0)
      { config := { dataset_size := 2, targetH := 1, targetW := 1, chunk_size := 1, ann_file := "a" },
        pos := 0, baseLocked := false, subLocked := none,
        inputFiles := fun _ => none, targetFiles := fun _ => none }
      { config := { dataset_size := 2, targetH := 1, targetW := 1, chunk_size := 1, ann_file := "a" },
        pos := 0, baseLocked := false, subLocked := none,
        inputFiles := fun _ => none, targetFiles := fun _ => none }
      0).2.2.1 rfl (by simp)
  · exact (C3_lock_gating
      { dataset_size := 2, targetH := 1, targetW := 1, chunk_size := 1, ann_file := "a" }
      (0 : Nat) (0 : Nat) none none { inputDirPresent := false, targetDirPresent := false }
      id id [Op.lock]
      (storage_hdf5.init { dataset_size := 2, targetH := 1, targetW := 1, chunk_size := 1, ann_file := "a" } 0 0 none none)
      (storage_memmap.lock (storage_memmap.init { dataset_size := 2, targetH := 1, targetW := 1, chunk_size := 1, ann_file := "a" } 0 0))
      { config := { dataset_size := 2, targetH := 1, targetW := 1, chunk_size := 1, ann_file := "a" },
        pos := 0, baseLocked := false, subLocked := none,
        inputFiles := fun _ => none, targetFiles := fun _ => none }
      { config := { dataset_size := 2, targetH := 1, targetW := 1, chunk_size := 1, ann_file := "a" },
        pos := 0, baseLocked := false, subLocked := none,
        inputFiles := fun _ => none, targetFiles := fun _ => none }
      0).2.2.2.1 rfl (by simp)
  · exact (C3_lock_gating
      { dataset_size := 2, targetH := 1, targetW := 1, chunk_size := 1, ann_file := "a" }
      (0 : Nat) (0 : Nat) none none { inputDirPresent := false, targetDirPresent := false }
      id id []
      (storage_hdf5.init { dataset_size := 2, targetH := 1, targetW := 1, chunk_size := 1, ann_file := "a" } 0 0 none none)
      (storage_memmap.init { dataset_size := 2, targetH := 1, targetW := 1, chunk_size := 1, ann_file := "a" } 0 0)
      { config := { dataset_size := 2, targetH := 1, targetW := 1, chunk_size := 1, ann_file := "a" },
        pos := 0, baseLocked := false, subLocked := none,
        inputFiles := fun _ => none, targetFiles := fun _ => none }
      { config := { dataset_size := 2, targetH := 1, targetW := 1, chunk_size := 1, ann_file := "a" },
        pos := 0, baseLocked := false, subLocked := none,
        inputFiles := fun _ => none, targetFiles := fun _ => none }
      0).2.2.2.2.1 rfl rfl (by simp)
  · exact (C3_lock_gating
      { dataset_size := 2, targetH := 1, targetW := 1, chunk_size := 1, ann_file := "a" }
      (0 : Nat) (0 : Nat) none none { inputDirPresent := false, targetDirPresent := false }
      id id [Op.lock]
      (storage_hdf5.init { dataset_size := 2, targetH := 1, targetW := 1, chunk_size := 1, ann_file := "a" } 0 0 none none)
      (storage_memmap.init { dataset_size := 2, targetH := 1, targetW := 1, chunk_size := 1, ann_file := "a" } 0 0)
      { config := { dataset_size := 2, targetH := 1, targetW := 1, chunk_size := 1, ann_file := "a" },
        pos := 0, baseLocked := false, subLocked := none,
        inputFiles := fun _ => none, targetFiles := fun _ => none }
      (storage_raw.lock
        { config := { dataset_size := 2, targetH := 1, targetW := 1, chunk_size := 1, ann_file := "a" },
          pos := 0, baseLocked := false, subLocked := none,
          inputFiles := fun _ => none, targetFiles := fun _ => none })
      0).2.2.2.2.2 rfl rfl (by simp)

end DLStorage

namespace DLStorage

/-- Claim C8, witness: the state-machine invariants evaluated at
concrete states: an append at `pos = 0` with `N = 2, C = 1`, a covering
two-append run with `N = 5, C = 3`, a locked state surviving a `get`,
and a fresh flat-file state. -/
theorem C8_witness :
    ({ config := { dataset_size := 2, targetH := 1, targetW := 1, chunk_size := 1, ann_file := "a" },
       pos := 1, baseLocked := false, subLocked := none,
       input := [9, 4], target := [9, 6] } : ArrSt Nat Nat).pos
      = ({ config := { dataset_size := 2, targetH := 1, targetW := 1, chunk_size := 1, ann_file := "a" },
           pos := 0, baseLocked := false, subLocked := none,
           input := [3, 4], target := [5, 6] } : ArrSt Nat Nat).pos + 1
    ∧ ({ config := { dataset_size := 5, targetH := 4, targetW := 4, chunk_size := 3, ann_file := "a" },
         pos := 2, baseLocked := false, subLocked := none,
         input := [1, 2, 3, 4, 5], target := [1, 2, 3, 4, 5] } : ArrSt Nat Nat).pos
        ≤ numChunksFor 5 3
    ∧ ({ config := { dataset_size := 2, targetH := 1, targetW := 1, chunk_size := 1, ann_file := "a" },
         pos := 2, baseLocked := false, subLocked := some true,
         input := [3, 4], target := [5, 6] } : ArrSt Nat Nat).subLocked = some true
    ∧ ({ config := { dataset_size := 2, targetH := 1, targetW := 1, chunk_size := 1, ann_file := "a" },
         pos := 0, baseLocked := false, subLocked := none,
         inputFiles := fun _ => none, targetFiles := fun _ => none } : RawSt Nat Nat).pos = 0 := by
  refine ⟨?_, ?_, ?_, ?_⟩
  · exact (C8_state_machine
      { dataset_size := 2, targetH := 1, targetW := 1, chunk_size := 1, ann_file := "a" }
      (0 : Nat) (0 : Nat) none none { inputDirPresent := false, targetDirPresent := false }
      id id [9] [9] [] []
      { config := { dataset_size := 2, targetH := 1, targetW := 1, chunk_size := 1, ann_file := "a" },
        pos := 0, baseLocked := false, subLocked := none, input := [3, 4], target := [5, 6] }
      { config := { dataset_size := 2, targetH := 1, targetW := 1, chunk_size := 1, ann_file := "a" },
        pos := 1, baseLocked := false, subLocked := none, input := [9, 4], target := [9, 6] }
      (storage_hdf5.init { dataset_size := 2, targetH := 1, targetW := 1, chunk_size := 1, ann_file := "a" } 0 0 none none)
      (storage_hdf5.init { dataset_size := 2, targetH := 1, targetW := 1, chunk_size := 1, ann_file := "a" } 0 0 none none)
      (storage_hdf5.init { dataset_size := 2, targetH := 1, targetW := 1, chunk_size := 1, ann_file := "a" } 0 0 none none)
      (storage_memmap.init { dataset_size := 2, targetH := 1, targetW := 1, chunk_size := 1, ann_file := "a" } 0 0)
      (storage_memmap.init { dataset_size := 2, targetH := 1, targetW := 1, chunk_size := 1, ann_file := "a" } 0 0)
      (storage_memmap.init { dataset_size := 2, targetH := 1, targetW := 1, chunk_size := 1, ann_file := "a" } 0 0)
      (storage_memmap.init { dataset_size := 2, targetH := 1, targetW := 1, chunk_size := 1, ann_file := "a" } 0 0)
      (storage_memmap.init { dataset_size := 2, targetH := 1, targetW := 1, chunk_size := 1, ann_file := "a" } 0 0)
      { config := { dataset_size := 2, targetH := 1, targetW := 1, chunk_size := 1, ann_file := "a" },
        pos := 0, baseLocked := false, subLocked := none,
        inputFiles := fun _ => none, targetFiles := fun _ => none }
      { config := { dataset_size := 2, targetH := 1, targetW := 1, chunk_size := 1, ann_file := "a" },
        pos := 0, baseLocked := false, subLocked := none,
        inputFiles := fun _ => none, targetFiles := fun _ => none }
      { config := { dataset_size := 2, targetH := 1, targetW := 1, chunk_size := 1, ann_file := "a" },
        pos := 0, baseLocked := false, subLocked := none,
        inputFiles := fun _ => none, targetFiles := fun _ => none }
      { config := { dataset_size := 2, targetH := 1, targetW := 1, chunk_size := 1, ann_file := "a" },
        pos := 0, baseLocked := false, subLocked := none,
        inputFiles := fun _ => none, targetFiles := fun _ => none }
      { config := { dataset_size := 2, targetH := 1, targetW := 1, chunk_size := 1, ann_file := "a" },
        pos := 0, baseLocked := false, subLocked := none,
        inputFiles := fun _ => none, targetFiles := fun _ => none }
      { config := { dataset_size := 2, targetH := 1, targetW := 1, chunk_size := 1, ann_file := "a" },
        pos := 0, baseLocked := false, subLocked := none,
        inputFiles := fun _ => none, targetFiles := fun _ => none }).2.1 rfl
  · exact (C8_state_machine
      { dataset_size := 5, targetH := 4, targetW := 4, chunk_size := 3, ann_file := "a" }
      (0 : Nat) (0 : Nat) none none { inputDirPresent := false, targetDirPresent := false }
      id id [] [] [([1, 2, 3], [1, 2, 3]), ([4, 5, 6], [4, 5, 6])] []
      (storage_hdf5.init { dataset_size := 5, targetH := 4, targetW := 4, chunk_size := 3, ann_file := "a" } 0 0 none none)
      (storage_hdf5.init { dataset_size := 5, targetH := 4, targetW := 4, chunk_size := 3, ann_file := "a" } 0 0 none none)
      { config := { dataset_size := 5, targetH := 4, targetW := 4, chunk_size := 3, ann_file := "a" },
        pos := 2, baseLocked := false, subLocked := none,
        input := [1, 2, 3, 4, 5], target := [1, 2, 3, 4, 5] }
      (storage_hdf5.init { dataset_size := 5, targetH := 4, targetW := 4, chunk_size := 3, ann_file := "a" } 0 0 none none)
      (storage_hdf5.init { dataset_size := 5, targetH := 4, targetW := 4, chunk_size := 3, ann_file := "a" } 0 0 none none)
      (storage_memmap.init { dataset_size := 5, targetH := 4, targetW := 4, chunk_size := 3, ann_file := "a" } 0 0)
      (storage_memmap.init { dataset_size := 5, targetH := 4, targetW := 4, chunk_size := 3, ann_file := "a" } 0 0)
      (storage_memmap.init { dataset_size := 5, targetH := 4, targetW := 4, chunk_size := 3, ann_file := "a" } 0 0)
      (storage_memmap.init { dataset_size := 5, targetH := 4, targetW := 4, chunk_size := 3, ann_file := "a" } 0 0)
      (storage_memmap.init { dataset_size := 5, targetH := 4, targetW := 4, chunk_size := 3, ann_file := "a" } 0 0)
      { config := { dataset_size := 5, targetH := 4, targetW := 4, chunk_size := 3, ann_file := "a" },
        pos := 0, baseLocked := false, subLocked := none,
        inputFiles := fun _ => none, targetFiles := fun _ => none }
      { config := { dataset_size := 5, targetH := 4, targetW := 4, chunk_size := 3, ann_file := "a" },
        pos := 0, baseLocked := false, subLocked := none,
        inputFiles := fun _ => none, targetFiles := fun _ => none }
      { config := { dataset_size := 5, targetH := 4, targetW := 4, chunk_size := 3, ann_file := "a" },
        pos := 0, baseLocked := false, subLocked := none,
        inputFiles := fun _ => none, targetFiles := fun _ => none }
      { config := { dataset_size := 5, targetH := 4, targetW := 4, chunk_size := 3, ann_file := "a" },
        pos := 0, baseLocked := false, subLocked := none,
        inputFiles := fun _ => none, targetFiles := fun _ => none }
      { config := { dataset_size := 5, targetH := 4, targetW := 4, chunk_size := 3, ann_file := "a" },
        pos := 0, baseLocked := false, subLocked := none,
        inputFiles := fun _ => none, targetFiles := fun _ => none }
      { config := { dataset_size := 5, targetH := 4, targetW := 4, chunk_size := 3, ann_file := "a" },
        pos := 0, baseLocked := false, subLocked := none,
        inputFiles := fun _ => none, targetFiles := fun _ => none }).2.2.2.2.1 rfl (by decide)
  · exact (C8_state_machine
      { dataset_size := 2, targetH := 1, targetW := 1, chunk_size := 1, ann_file := "a" }
      (0 : Nat) (0 : Nat) none none { inputDirPresent := false, targetDirPresent := false }
      id id [] [] [] [Op.get 0]
      (storage_hdf5.init { dataset_size := 2, targetH := 1, targetW := 1, chunk_size := 1, ann_file := "a" } 0 0 none none)
      (storage_hdf5.init { dataset_size := 2, targetH := 1, targetW := 1, chunk_size := 1, ann_file := "a" } 0 0 none none)
      (storage_hdf5.init { dataset_size := 2, targetH := 1, targetW := 1, chunk_size := 1, ann_file := "a" } 0 0 none none)
      { config := { dataset_size := 2, targetH := 1, targetW := 1, chunk_size := 1, ann_file := "a" },
        pos := 2, baseLocked := false, subLocked := some true, input := [3, 4], target := [5, 6] }
      { config := { dataset_size := 2, targetH := 1, targetW := 1, chunk_size := 1, ann_file := "a" },
        pos := 2, baseLocked := false, subLocked := some true, input := [3, 4], target := [5, 6] }
      (storage_memmap.init { dataset_size := 2, targetH := 1, targetW := 1, chunk_size := 1, ann_file := "a" } 0 0)
      (storage_memmap.init { dataset_size := 2, targetH := 1, targetW := 1, chunk_size := 1, ann_file := "a" } 0 0)
      (storage_memmap.init { dataset_size := 2, targetH := 1, targetW := 1, chunk_size := 1, ann_file := "a" } 0 0)
      (storage_memmap.init { dataset_size := 2, targetH := 1, targetW := 1, chunk_size := 1, ann_file := "a" } 0 0)
      (storage_memmap.init { dataset_size := 2, targetH := 1, targetW := 1, chunk_size := 1, ann_file := "a" } 0 0)
      { config := { dataset_size := 2, targetH := 1, targetW := 1, chunk_size := 1, ann_file := "a" },
        pos := 0, baseLocked := false, subLocked := none,
        inputFiles := fun _ => none, targetFiles := fun _ => none }
      { config := { dataset_size := 2, targetH := 1, targetW := 1, chunk_size := 1, ann_file := "a" },
        pos := 0, baseLocked := false, subLocked := none,
        inputFiles := fun _ => none, targetFiles := fun _ => none }
      { config := { dataset_size := 2, targetH := 1, targetW := 1, chunk_size := 1, ann_file := "a" },
        pos := 0, baseLocked := false, subLocked := none,
        inputFiles := fun _ => none, targetFiles := fun _ => none }
      { config := { dataset_size := 2, targetH := 1, targetW := 1, chunk_size := 1, ann_file := "a" },
        pos := 0, baseLocked := false, subLocked := none,
        inputFiles := fun _ => none, targetFiles := fun _ => none }
      { config := { dataset_size := 2, targetH := 1, targetW := 1, chunk_size := 1, ann_file := "a" },
        pos := 0, baseLocked := false, subLocked := none,
        inputFiles := fun _ => none, targetFiles := fun _ => none }
      { config := { dataset_size := 2, targetH := 1, targetW := 1, chunk_size := 1, ann_file := "a" },
        pos := 0, baseLocked := false, subLocked := none,
        inputFiles := fun _ => none, targetFiles := fun _ => none }).2.2.2.2.2.2.2.2.1 rfl rfl
  · exact ((C8_state_machine
      { dataset_size := 2, targetH := 1, targetW := 1, chunk_size := 1, ann_file := "a" }
      (0 : Nat) (0 : Nat) none none { inputDirPresent := false, targetDirPresent := false }
      id id [] [] [] []
      (storage_hdf5.init { dataset_size := 2, targetH := 1, targetW := 1, chunk_size := 1, ann_file := "a" } 0 0 none none)
      (storage_hdf5.init { dataset_size := 2, targetH := 1, targetW := 1, chunk_size := 1, ann_file := "a" } 0 0 none none)
      (storage_hdf5.init { dataset_size := 2, targetH := 1, targetW := 1, chunk_size := 1, ann_file := "a" } 0 0 none none)
      (storage_hdf5.init { dataset_size := 2, targetH := 1, targetW := 1, chunk_size := 1, ann_file := "a" } 0 0 none none)
      (storage_hdf5.init { dataset_size := 2, targetH := 1, targetW := 1, chunk_size := 1, ann_file := "a" } 0 0 none none)
      (storage_memmap.init { dataset_size := 2, targetH := 1, targetW := 1, chunk_size := 1, ann_file := "a" } 0 0)
      (storage_memmap.init { dataset_size := 2, targetH := 1, targetW := 1, chunk_size := 1, ann_file := "a" } 0 0)
      (storage_memmap.init { dataset_size := 2, targetH := 1, targetW := 1, chunk_size := 1, ann_file := "a" } 0 0)
      (storage_memmap.init { dataset_size := 2, targetH := 1, targetW := 1, chunk_size := 1, ann_file := "a" } 0 0)
      (storage_memmap.init { dataset_size := 2, targetH := 1, targetW := 1, chunk_size := 1, ann_file := "a" } 0 0)
      { config := { dataset_size := 2, targetH := 1, targetW := 1, chunk_size := 1, ann_file := "a" },
        pos := 0, baseLocked := false, subLocked := none,
        inputFiles := fun _ => none, targetFiles := fun _ => none }
      { config := { dataset_size := 2, targetH := 1, targetW := 1, chunk_size := 1, ann_file := "a" },
        pos := 0, baseLocked := false, subLocked := none,
        inputFiles := fun _ => none, targetFiles := fun _ => none }
      { config := { dataset_size := 2, targetH := 1, targetW := 1, chunk_size := 1, ann_file := "a" },
        pos := 0, baseLocked := false, subLocked := none,
        inputFiles := fun _ => none, targetFiles := fun _ => none }
      { config := { dataset_size := 2, targetH := 1, targetW := 1, chunk_size := 1, ann_file := "a" },
        pos := 0, baseLocked := false, subLocked := none,
        inputFiles := fun _ => none, targetFiles := fun _ => none }
      { config := { dataset_size := 2, targetH := 1, targetW := 1, chunk_size := 1, ann_file := "a" },
        pos := 0, baseLocked := false, subLocked := none,
        inputFiles := fun _ => none, targetFiles := fun _ => none }
      { config := { dataset_size := 2, targetH := 1, targetW := 1, chunk_size := 1, ann_file := "a" },
        pos := 0, baseLocked := false, subLocked := none,
        inputFiles := fun _ => none, targetFiles := fun _ => none }).1.2.2.2.2 rfl).1

end DLStorage

namespace DLStorage

/-- Claim C9, witness: the amended post-coverage behavior evaluated at
`N = 5, C = 3` after two covering appends: the container append of a
full 3-row chunk silently succeeds and increments `pos` (h5py skips the
empty selection), while the same call on the mapped backend raises the
numpy broadcast error; an empty trimmed prefix (`pos = 3`) and a
single-row trimmed prefix are no-op increments on the mapped
backend. -/
theorem C9_witness :
    storage_hdf5.append
      ({ config := { dataset_size := 5, targetH := 4, targetW := 4, chunk_size := 3, ann_file := "a" },
         pos := 2, baseLocked := false, subLocked := none,
         input := [1, 2, 3, 4, 5], target := [1, 2, 3, 4, 5] } : ArrSt Nat Nat)
      [7, 8, 9] [7, 8, 9]
      = Except.ok
        { config := { dataset_size := 5, targetH := 4, targetW := 4, chunk_size := 3, ann_file := "a" },
          pos := 3, baseLocked := false, subLocked := none,
          input := [1, 2, 3, 4, 5], target := [1, 2, 3, 4, 5] }
    ∧ storage_memmap.append
      ({ config := { dataset_size := 5, targetH := 4, targetW := 4, chunk_size := 3, ann_file := "a" },
         pos := 2, baseLocked := false, subLocked := none,
         input := [1, 2, 3, 4, 5], target := [1, 2, 3, 4, 5] } : ArrSt Nat Nat)
      [7, 8, 9] [7, 8, 9]
      = Except.error Err.valueErrorBroadcast
    ∧ storage_memmap.append
      ({ config := { dataset_size := 5, targetH := 4, targetW := 4, chunk_size := 3, ann_file := "a" },
         pos := 3, baseLocked := false, subLocked := none,
         input := [1, 2, 3, 4, 5], target := [1, 2, 3, 4, 5] } : ArrSt Nat Nat)
      [7, 8, 9] [7, 8, 9]
      = Except.ok
        { config := { dataset_size := 5, targetH := 4, targetW := 4, chunk_size := 3, ann_file := "a" },
          pos := 4, baseLocked := false, subLocked := none,
          input := [1, 2, 3, 4, 5], target := [1, 2, 3, 4, 5] }
    ∧ storage_memmap.append
      ({ config := { dataset_size := 5, targetH := 4, targetW := 4, chunk_size := 3, ann_file := "a" },
         pos := 2, baseLocked := false, subLocked := none,
         input := [1, 2, 3, 4, 5], target := [1, 2, 3, 4, 5] } : ArrSt Nat Nat)
      [7, 8] [7, 8]
      = Except.ok
        { config := { dataset_size := 5, targetH := 4, targetW := 4, chunk_size := 3, ann_file := "a" },
          pos := 3, baseLocked := false, subLocked := none,
          input := [1, 2, 3, 4, 5], target := [1, 2, 3, 4, 5] } := by
  refine ⟨?_, ?_, ?_, ?_⟩
  · exact (C9_post_coverage_amended (id : Nat → Nat) (id : Nat → Nat)
      { config := { dataset_size := 5, targetH := 4, targetW := 4, chunk_size := 3, ann_file := "a" },
        pos := 2, baseLocked := false, subLocked := none,
        input := [1, 2, 3, 4, 5], target := [1, 2, 3, 4, 5] }
      { config := { dataset_size := 5, targetH := 4, targetW := 4, chunk_size := 3, ann_file := "a" },
        pos := 3, baseLocked := false, subLocked := none,
        input := [1, 2, 3, 4, 5], target := [1, 2, 3, 4, 5] }
      { config := { dataset_size := 5, targetH := 4, targetW := 4, chunk_size := 3, ann_file := "a" },
        pos := 2, baseLocked := false, subLocked := none,
        input := [1, 2, 3, 4, 5], target := [1, 2, 3, 4, 5] }
      { config := { dataset_size := 5, targetH := 4, targetW := 4, chunk_size := 3, ann_file := "a" },
        pos := 2, baseLocked := false, subLocked := none,
        input := [1, 2, 3, 4, 5], target := [1, 2, 3, 4, 5] }
      { config := { dataset_size := 5, targetH := 4, targetW := 4, chunk_size := 3, ann_file := "a" },
        pos := 2, baseLocked := false, subLocked := none,
        inputFiles := fun _ => none, targetFiles := fun _ => none }
      [7, 8, 9] [7, 8, 9] 7 7).2.1 (by decide) (by decide)
  · exact (C9_post_coverage_amended (id : Nat → Nat) (id : Nat → Nat)
      { config := { dataset_size := 5, targetH := 4, targetW := 4, chunk_size := 3, ann_file := "a" },
        pos := 2, baseLocked := false, subLocked := none,
        input := [1, 2, 3, 4, 5], target := [1, 2, 3, 4, 5] }
      { config := { dataset_size := 5, targetH := 4, targetW := 4, chunk_size := 3, ann_file := "a" },
        pos := 3, baseLocked := false, subLocked := none,
        input := [1, 2, 3, 4, 5], target := [1, 2, 3, 4, 5] }
      { config := { dataset_size := 5, targetH := 4, targetW := 4, chunk_size := 3, ann_file := "a" },
        pos := 2, baseLocked := false, subLocked := none,
        input := [1, 2, 3, 4, 5], target := [1, 2, 3, 4, 5] }
      { config := { dataset_size := 5, targetH := 4, targetW := 4, chunk_size := 3, ann_file := "a" },
        pos := 2, baseLocked := false, subLocked := none,
        input := [1, 2, 3, 4, 5], target := [1, 2, 3, 4, 5] }
      { config := { dataset_size := 5, targetH := 4, targetW := 4, chunk_size := 3, ann_file := "a" },
        pos := 2, baseLocked := false, subLocked := none,
        inputFiles := fun _ => none, targetFiles := fun _ => none }
      [7, 8, 9] [7, 8, 9] 7 7).2.2.2.2 (by decide) (by decide)
  · exact (C9_post_coverage_amended (id : Nat → Nat) (id : Nat → Nat)
      { config := { dataset_size := 5, targetH := 4, targetW := 4, chunk_size := 3, ann_file := "a" },
        pos := 2, baseLocked := false, subLocked := none,
        input := [1, 2, 3, 4, 5], target := [1, 2, 3, 4, 5] }
      { config := { dataset_size := 5, targetH := 4, targetW := 4, chunk_size := 3, ann_file := "a" },
        pos := 3, baseLocked := false, subLocked := none,
        input := [1, 2, 3, 4, 5], target := [1, 2, 3, 4, 5] }
      { config := { dataset_size := 5, targetH := 4, targetW := 4, chunk_size := 3, ann_file := "a" },
        pos := 2, baseLocked := false, subLocked := none,
        input := [1, 2, 3, 4, 5], target := [1, 2, 3, 4, 5] }
      { config := { dataset_size := 5, targetH := 4, targetW := 4, chunk_size := 3, ann_file := "a" },
        pos := 2, baseLocked := false, subLocked := none,
        input := [1, 2, 3, 4, 5], target := [1, 2, 3, 4, 5] }
      { config := { dataset_size := 5, targetH := 4, targetW := 4, chunk_size := 3, ann_file := "a" },
        pos := 2, baseLocked := false, subLocked := none,
        inputFiles := fun _ => none, targetFiles := fun _ => none }
      [7, 8, 9] [7, 8, 9] 7 7).2.2.1 (by decide) (by decide) (by decide) (by decide)
  · exact (C9_post_coverage_amended (id : Nat → Nat) (id : Nat → Nat)
      { config := { dataset_size := 5, targetH := 4, targetW := 4, chunk_size := 3, ann_file := "a" },
        pos := 2, baseLocked := false, subLocked := none,
        input := [1, 2, 3, 4, 5], target := [1, 2, 3, 4, 5] }
      { config := { dataset_size := 5, targetH := 4, targetW := 4, chunk_size := 3, ann_file := "a" },
        pos := 3, baseLocked := false, subLocked := none,
        input := [1, 2, 3, 4, 5], target := [1, 2, 3, 4, 5] }
      { config := { dataset_size := 5, targetH := 4, targetW := 4, chunk_size := 3, ann_file := "a" },
        pos := 2, baseLocked := false, subLocked := none,
        input := [1, 2, 3, 4, 5], target := [1, 2, 3, 4, 5] }
      { config := { dataset_size := 5, targetH := 4, targetW := 4, chunk_size := 3, ann_file := "a" },
        pos := 2, baseLocked := false, subLocked := none,
        input := [1, 2, 3, 4, 5], target := [1, 2, 3, 4, 5] }
      { config := { dataset_size := 5, targetH := 4, targetW := 4, chunk_size := 3, ann_file := "a" },
        pos := 2, baseLocked := false, subLocked := none,
        inputFiles := fun _ => none, targetFiles := fun _ => none }
      [7, 8] [7, 8] 7 7).2.2.2.1 (by decide) (by decide) (by decide) (by decide)

/-- Claim C10, witness: the mangling behavior evaluated on concrete
fresh states of all three backends. -/
theorem C10_witness :
    storage_hdf5.getitem
      (storage_hdf5.init
        { dataset_size := 2, targetH := 1, targetW := 1, chunk_size := 1, ann_file := "a" }
        (0 : Nat) (0 : Nat) none none) 0
      = Except.error (Err.attributeErrorMissing "_storage_hdf5__locked")
    ∧ storage_memmap.getitem
      (storage_memmap.init
        { dataset_size := 2, targetH := 1, targetW := 1, chunk_size := 1, ann_file := "a" }
        (0 : Nat) (0 : Nat)) 0
      = Except.error (Err.attributeErrorMissing "_storage_memmap__locked")
    ∧ storage_raw.getitem
      ({ config := { dataset_size := 2, targetH := 1, targetW := 1, chunk_size := 1, ann_file := "a" },
         pos := 0, baseLocked := false, subLocked := none,
         inputFiles := fun _ => none, targetFiles := fun _ => none } : RawSt Nat Nat) 0
      = Except.error (Err.attributeErrorMissing "_storage_raw__locked")
    ∧ storage_hdf5.getitem
      (storage_hdf5.init
        { dataset_size := 2, targetH := 1, targetW := 1, chunk_size := 1, ann_file := "a" }
        (0 : Nat) (0 : Nat) none none) 0
      ≠ Except.error (Err.attributeErrorRaised "HDF5 file is not locked. Access denied.")
    ∧ storage_hdf5.getitem
      ({ storage_hdf5.init
          { dataset_size := 2, targetH := 1, targetW := 1, chunk_size := 1, ann_file := "a" }
          (0 : Nat) (0 : Nat) none none with baseLocked := true }) 0
      = storage_hdf5.getitem
        (storage_hdf5.init
          { dataset_size := 2, targetH := 1, targetW := 1, chunk_size := 1, ann_file := "a" }
          (0 : Nat) (0 : Nat) none none) 0 := by
  refine ⟨?_, ?_, ?_, ?_, ?_⟩
  · exact (C10_mangled_lock_flag
      { dataset_size := 2, targetH := 1, targetW := 1, chunk_size := 1, ann_file := "a" }
      (0 : Nat) (0 : Nat) none none { inputDirPresent := false, targetDirPresent := false }
      id id []
      (storage_hdf5.init { dataset_size := 2, targetH := 1, targetW := 1, chunk_size := 1, ann_file := "a" } 0 0 none none)
      (storage_memmap.init { dataset_size := 2, targetH := 1, targetW := 1, chunk_size := 1, ann_file := "a" } 0 0)
      { config := { dataset_size := 2, targetH := 1, targetW := 1, chunk_size := 1, ann_file := "a" },
        pos := 0, baseLocked := false, subLocked := none,
        inputFiles := fun _ => none, targetFiles := fun _ => none }
      { config := { dataset_size := 2, targetH := 1, targetW := 1, chunk_size := 1, ann_file := "a" },
        pos := 0, baseLocked := false, subLocked := none,
        inputFiles := fun _ => none, targetFiles := fun _ => none }
      0 true).2.1 rfl (by simp)
  · exact (C10_mangled_lock_flag
      { dataset_size := 2, targetH := 1, targetW := 1, chunk_size := 1, ann_file := "a" }
      (0 : Nat) (0 : Nat) none none { inputDirPresent := false, targetDirPresent := false }
      id id []
      (storage_hdf5.init { dataset_size := 2, targetH := 1, targetW := 1, chunk_size := 1, ann_file := "a" } 0 0 none none)
      (storage_memmap.init { dataset_size := 2, targetH := 1, targetW := 1, chunk_size := 1, ann_file := "a" } 0 0)
      { config := { dataset_size := 2, targetH := 1, targetW := 1, chunk_size := 1, ann_file := "a" },
        pos := 0, baseLocked := false, subLocked := none,
        inputFiles := fun _ => none, targetFiles := fun _ => none }
      { config := { dataset_size := 2, targetH := 1, targetW := 1, chunk_size := 1, ann_file := "a" },
        pos := 0, baseLocked := false, subLocked := none,
        inputFiles := fun _ => none, targetFiles := fun _ => none }
      0 true).2.2.1 rfl (by simp)
  · exact (C10_mangled_lock_flag
      { dataset_size := 2, targetH := 1, targetW := 1, chunk_size := 1, ann_file := "a" }
      (0 : Nat) (0 : Nat) none none { inputDirPresent := false, targetDirPresent := false }
      id id []
      (storage_hdf5.init { dataset_size := 2, targetH := 1, targetW := 1, chunk_size := 1, ann_file := "a" } 0 0 none none)
      (storage_memmap.init { dataset_size := 2, targetH := 1, targetW := 1, chunk_size := 1, ann_file := "a" } 0 0)
      { config := { dataset_size := 2, targetH := 1, targetW := 1, chunk_size := 1, ann_file := "a" },
        pos := 0, baseLocked := false, subLocked := none,
        inputFiles := fun _ => none, targetFiles := fun _ => none }
      { config := { dataset_size := 2, targetH := 1, targetW := 1, chunk_size := 1, ann_file := "a" },
        pos := 0, baseLocked := false, subLocked := none,
        inputFiles := fun _ => none, targetFiles := fun _ => none }
      0 true).2.2.2.1 rfl rfl (by simp)
  · exact (C10_mangled_lock_flag
      { dataset_size := 2, targetH := 1, targetW := 1, chunk_size := 1, ann_file := "a" }
      (0 : Nat) (0 : Nat) none none { inputDirPresent := false, targetDirPresent := false }
      id id []
      (storage_hdf5.init { dataset_size := 2, targetH := 1, targetW := 1, chunk_size := 1, ann_file := "a" } 0 0 none none)
      (storage_memmap.init { dataset_size := 2, targetH := 1, targetW := 1, chunk_size := 1, ann_file := "a" } 0 0)
      { config := { dataset_size := 2, targetH := 1, targetW := 1, chunk_size := 1, ann_file := "a" },
        pos := 0, baseLocked := false, subLocked := none,
        inputFiles := fun _ => none, targetFiles := fun _ => none }
      { config := { dataset_size := 2, targetH := 1, targetW := 1, chunk_size := 1, ann_file := "a" },
        pos := 0, baseLocked := false, subLocked := none,
        inputFiles := fun _ => none, targetFiles := fun _ => none }
      0 true).2.2.2.2.1 rfl "HDF5 file is not locked. Access denied."
  · exact (C10_mangled_lock_flag
      { dataset_size := 2, targetH := 1, targetW := 1, chunk_size := 1, ann_file := "a" }
      (0 : Nat) (0 : Nat) none none { inputDirPresent := false, targetDirPresent := false }
      id id []
      (storage_hdf5.init { dataset_size := 2, targetH := 1, targetW := 1, chunk_size := 1, ann_file := "a" } 0 0 none none)
      (storage_memmap.init { dataset_size := 2, targetH := 1, targetW := 1, chunk_size := 1, ann_file := "a" } 0 0)
      { config := { dataset_size := 2, targetH := 1, targetW := 1, chunk_size := 1, ann_file := "a" },
        pos := 0, baseLocked := false, subLocked := none,
        inputFiles := fun _ => none, targetFiles := fun _ => none }
      { config := { dataset_size := 2, targetH := 1, targetW := 1, chunk_size := 1, ann_file := "a" },
        pos := 0, baseLocked := false, subLocked := none,
        inputFiles := fun _ => none, targetFiles := fun _ => none }
      0 true).2.2.2.2.2.2.2.1

end DLStorage
